import Mathlib

/-! go-simplebank: the transactional transfer (`db/sqlc/store.go`)

A shallow embedding of `execTx`, `TransferTx` and `addMoney`.  The database
handle and the generated query accessor are parameters of the embedding: every
operation is a function on an abstract backend state `σ` that returns the Go
result pair together with the next state.  Each call the code makes on a
collaborator is appended, with its outcome, to a trace, so that statements
about which calls are issued, and in which order, can be made.
-/

namespace SimpleBank

/-! ## Machine integers -/

/-- Go's `int64`: the integers from `-2^63` up to `2^63 - 1`. -/
def int64 : Type :=
  { x : Int // -9223372036854775808 ≤ x ∧ x < 9223372036854775808 }

namespace int64

instance : DecidableEq int64 :=
  fun a b => decidable_of_iff (a.val = b.val) Subtype.ext_iff.symm

/-- Conversion of a mathematical integer with two's-complement wrap-around. -/
def wrap (x : Int) : int64 :=
  ⟨(x + 9223372036854775808) % 18446744073709551616 - 9223372036854775808, by omega⟩

/-- The zero value of `int64`. -/
def zero : int64 := ⟨0, by omega⟩

instance : Inhabited int64 := ⟨zero⟩

/-- The smallest `int64`, `-2^63`. -/
def minValue : int64 := ⟨-9223372036854775808, by omega⟩

/-- Go's unary minus on `int64`: negation modulo `2^64`. -/
def neg (x : int64) : int64 := wrap (-x.val)

/-- Go's `<` on `int64`. -/
instance : LT int64 := ⟨fun a b => a.val < b.val⟩

instance (a b : int64) : Decidable (a < b) := Int.decLt a.val b.val

end int64

/-! ## Records and parameters -/

/-- A Go `error` value; `nil` is `none` of `Option GoError`.  Only the message
(what `Error()` returns) is kept. -/
structure GoError where
  msg : String
  deriving DecidableEq

/-- Modelled from the spec: the `Account` row type (its declaration is in the
generated `models.go`, which is not part of the sources): identity and
balance. -/
structure Account where
  ID : int64
  Balance : int64
  deriving DecidableEq

/-- Modelled from the spec: the `Entry` row type (declared in the generated
`models.go`): identity, the account it belongs to, the signed amount. -/
structure Entry where
  ID : int64
  AccountID : int64
  Amount : int64
  deriving DecidableEq

/-- Modelled from the spec: the `Transfer` row type (declared in the
generated `models.go`): identity, source, destination, amount. -/
structure Transfer where
  ID : int64
  FromAccountID : int64
  ToAccountID : int64
  Amount : int64
  deriving DecidableEq

instance : Inhabited Account := ⟨⟨int64.zero, int64.zero⟩⟩
instance : Inhabited Entry := ⟨⟨int64.zero, int64.zero, int64.zero⟩⟩
instance : Inhabited Transfer := ⟨⟨int64.zero, int64.zero, int64.zero, int64.zero⟩⟩

/-- Argument of `Queries.CreateTransfer`, with the fields `TransferTx` sets. -/
structure CreateTransferParams where
  FromAccountID : int64
  ToAccountID : int64
  Amount : int64
  deriving DecidableEq

/-- Argument of `Queries.CreateEntry`, with the fields `TransferTx` sets. -/
structure CreateEntryParams where
  AccountID : int64
  Amount : int64
  deriving DecidableEq

/-- Argument of `Queries.AddAccountBalance`, with the fields `addMoney` sets. -/
structure AddAccountBalanceParams where
  ID : int64
  Amount : int64
  deriving DecidableEq

/-- The input parameters of the transfer transaction (`TransferTxParams`). -/
structure TransferTxParams where
  FromAccountID : int64
  ToAccountID : int64
  Amount : int64
  deriving DecidableEq

/-- The result of the transfer transaction (`TransferTxResult`). -/
structure TransferTxResult where
  Transfer : Transfer
  FromAccount : Account
  ToAccount : Account
  FromEntry : Entry
  ToEntry : Entry
  deriving DecidableEq

/-- The Go zero value of `TransferTxResult` (`var result TransferTxResult`). -/
instance : Inhabited TransferTxResult := ⟨⟨default, default, default, default, default⟩⟩

/-! ## Collaborators and the call trace -/

/-- The generated query accessor `*Queries`, as far as `TransferTx` uses it.
Each method maps the backend state to the Go result pair and the next state. -/
structure Queries (σ : Type) where
  CreateTransfer : CreateTransferParams → σ → (Transfer × Option GoError) × σ
  CreateEntry : CreateEntryParams → σ → (Entry × Option GoError) × σ
  AddAccountBalance : AddAccountBalanceParams → σ → (Account × Option GoError) × σ

/-- The transaction primitives `execTx` uses: `db.BeginTx`, `tx.Rollback` and
`tx.Commit` of `database/sql`. -/
structure DB (σ : Type) where
  BeginTx : σ → Option GoError × σ
  Rollback : σ → Option GoError × σ
  Commit : σ → Option GoError × σ

/-- A call made on a collaborator. -/
inductive Call where
  | BeginTx
  | CreateTransfer (arg : CreateTransferParams)
  | CreateEntry (arg : CreateEntryParams)
  | AddAccountBalance (arg : AddAccountBalanceParams)
  | Rollback
  | Commit
  deriving DecidableEq

/-- A call together with the error it returned. -/
structure Event where
  call : Call
  err : Option GoError
  deriving DecidableEq

/-- The backend state and the calls made so far, oldest first. -/
structure World (σ : Type) where
  st : σ
  trace : List Event

/-- Run a value-returning collaborator call and record it. -/
def World.query {σ α : Type} (w : World σ) (c : Call)
    (op : σ → (α × Option GoError) × σ) : (α × Option GoError) × World σ :=
  ((op w.st).1, ⟨(op w.st).2, w.trace ++ [⟨c, (op w.st).1.2⟩]⟩)

/-- Run a collaborator call that returns only an error and record it. -/
def World.exec {σ : Type} (w : World σ) (c : Call)
    (op : σ → Option GoError × σ) : Option GoError × World σ :=
  ((op w.st).1, ⟨(op w.st).2, w.trace ++ [⟨c, (op w.st).1⟩]⟩)

/-! ## The code of `store.go` -/

/-- The error built by `fmt.Errorf("tx err: %v, rb err: %v", err, rbErr)`. -/
def rollbackFailure (err rbErr : GoError) : GoError :=
  ⟨"tx err: " ++ err.msg ++ ", rb err: " ++ rbErr.msg⟩

/-- The method `execTx`.  `q` is the accessor `New(tx)` bound to the
transaction.  The callback may assign variables it captures; their value is
threaded through as `captured`, and the value they have when `execTx` returns
is the first component of the result. -/
def execTx {σ ρ : Type} (db : DB σ) (q : Queries σ)
    (fn : Queries σ → ρ → World σ → (ρ × Option GoError) × World σ)
    (captured : ρ) (w : World σ) : (ρ × Option GoError) × World σ :=
  let b := w.exec Call.BeginTx db.BeginTx
  match b.1 with
  | some err => ((captured, some err), b.2)
  | none =>
    let r := fn q captured b.2
    match r.1.2 with
    | some err =>
      let rb := r.2.exec Call.Rollback db.Rollback
      match rb.1 with
      | some rbErr => ((r.1.1, some (rollbackFailure err rbErr)), rb.2)
      | none => ((r.1.1, some err), rb.2)
    | none =>
      let c := r.2.exec Call.Commit db.Commit
      ((r.1.1, c.1), c.2)

/-- The function `addMoney`.  Its results are named, so when the first update
fails `account2` is still the zero value. -/
def addMoney {σ : Type} (q : Queries σ) (accountID1 amount1 accountID2 amount2 : int64)
    (w : World σ) : (Account × Account × Option GoError) × World σ :=
  let r1 := w.query (Call.AddAccountBalance ⟨accountID1, amount1⟩)
    (q.AddAccountBalance ⟨accountID1, amount1⟩)
  match r1.1.2 with
  | some err => ((r1.1.1, default, some err), r1.2)
  | none =>
    let r2 := r1.2.query (Call.AddAccountBalance ⟨accountID2, amount2⟩)
      (q.AddAccountBalance ⟨accountID2, amount2⟩)
    ((r1.1.1, r2.1.1, r2.1.2), r2.2)

/-- The callback `TransferTx` passes to `execTx`; `result` is the variable of
`TransferTx` that the callback captures and assigns. -/
def TransferTx.fn {σ : Type} (arg : TransferTxParams) (q : Queries σ)
    (result : TransferTxResult) (w : World σ) :
    (TransferTxResult × Option GoError) × World σ :=
  let t := w.query (Call.CreateTransfer ⟨arg.FromAccountID, arg.ToAccountID, arg.Amount⟩)
    (q.CreateTransfer ⟨arg.FromAccountID, arg.ToAccountID, arg.Amount⟩)
  let result := { result with Transfer := t.1.1 }
  match t.1.2 with
  | some err => ((result, some err), t.2)
  | none =>
    let fe := t.2.query (Call.CreateEntry ⟨arg.FromAccountID, arg.Amount.neg⟩)
      (q.CreateEntry ⟨arg.FromAccountID, arg.Amount.neg⟩)
    let result := { result with FromEntry := fe.1.1 }
    match fe.1.2 with
    | some err => ((result, some err), fe.2)
    | none =>
      let te := fe.2.query (Call.CreateEntry ⟨arg.ToAccountID, arg.Amount⟩)
        (q.CreateEntry ⟨arg.ToAccountID, arg.Amount⟩)
      let result := { result with ToEntry := te.1.1 }
      match te.1.2 with
      | some err => ((result, some err), te.2)
      | none =>
        if arg.FromAccountID < arg.ToAccountID then
          let m := addMoney q arg.FromAccountID arg.Amount.neg arg.ToAccountID arg.Amount te.2
          (({ result with FromAccount := m.1.1, ToAccount := m.1.2.1 }, m.1.2.2), m.2)
        else
          let m := addMoney q arg.ToAccountID arg.Amount arg.FromAccountID arg.Amount.neg te.2
          (({ result with ToAccount := m.1.1, FromAccount := m.1.2.1 }, m.1.2.2), m.2)

/-- What a call of `TransferTx` leaves behind: the two values it returns, the
backend state, and the calls it made. -/
structure Outcome (σ : Type) where
  result : TransferTxResult
  err : Option GoError
  st : σ
  trace : List Event

/-- The method `TransferTx`, run on backend state `s`. -/
def TransferTx {σ : Type} (db : DB σ) (q : Queries σ) (arg : TransferTxParams) (s : σ) :
    Outcome σ :=
  let r := execTx db q (TransferTx.fn arg) default ⟨s, []⟩
  ⟨r.1.1, r.1.2, r.2.st, r.2.trace⟩

/-! ## A reference backend -/

/-- The three tables: the balance stored for each account ID (absent when
there is no such account), the entries and the transfers. -/
structure Tables where
  balances : int64 → Option int64
  entries : List Entry
  transfers : List Transfer

/-- Modelled from the spec: an in-memory stand-in for the database behind
`Queries` and `sql.DB` (the generated accessors and the database itself are
not part of the sources).  It serves one transaction at a time: `saved` holds
the tables as they were when the open transaction began.  `faults` injects
failures: every call consumes the head of the list and fails with the error
found there, if any. -/
structure MemStore where
  tables : Tables
  saved : Option Tables
  faults : List (Option GoError)

namespace MemStore

/-- The failure injected into the next call, if any. -/
def fault (s : MemStore) : Option GoError :=
  match s.faults with
  | some e :: _ => some e
  | _ => none

/-- The store after a call has consumed its fault slot. -/
def advance (s : MemStore) : MemStore :=
  ⟨s.tables, s.saved, s.faults.tail⟩

/-- Modelled from the spec: `BeginTx` opens the transaction, remembering the
tables as they are. -/
def BeginTx (s : MemStore) : Option GoError × MemStore :=
  match s.fault with
  | some e => (some e, s.advance)
  | none => (none, ⟨s.tables, some s.tables, s.faults.tail⟩)

/-- Modelled from the spec: a successful `Rollback` restores the tables of
the moment the transaction began; a failed one leaves the store as it is. -/
def Rollback (s : MemStore) : Option GoError × MemStore :=
  match s.fault with
  | some e => (some e, s.advance)
  | none =>
    match s.saved with
    | none => (some ⟨"sql: transaction has already been committed or rolled back"⟩, s.advance)
    | some t => (none, ⟨t, none, s.faults.tail⟩)

/-- Modelled from the spec: a successful `Commit` keeps the writes of the
transaction; a failed one discards them. -/
def Commit (s : MemStore) : Option GoError × MemStore :=
  match s.fault with
  | some e => (some e, ⟨s.saved.getD s.tables, none, s.faults.tail⟩)
  | none =>
    match s.saved with
    | none => (some ⟨"sql: transaction has already been committed or rolled back"⟩, s.advance)
    | some _ => (none, ⟨s.tables, none, s.faults.tail⟩)

/-- Modelled from the spec: `CreateTransfer(from, to, amount) → Transfer`
appends a transfer row and returns it. -/
def CreateTransfer (p : CreateTransferParams) (s : MemStore) :
    (Transfer × Option GoError) × MemStore :=
  match s.fault with
  | some e => ((default, some e), s.advance)
  | none =>
    ((⟨int64.wrap (s.tables.transfers.length + 1), p.FromAccountID, p.ToAccountID, p.Amount⟩,
        none),
      ⟨⟨s.tables.balances, s.tables.entries,
          s.tables.transfers ++
            [⟨int64.wrap (s.tables.transfers.length + 1), p.FromAccountID, p.ToAccountID,
              p.Amount⟩]⟩,
        s.saved, s.faults.tail⟩)

/-- Modelled from the spec: `CreateEntry(accountID, signedAmount) → Entry`
appends an entry row and returns it. -/
def CreateEntry (p : CreateEntryParams) (s : MemStore) :
    (Entry × Option GoError) × MemStore :=
  match s.fault with
  | some e => ((default, some e), s.advance)
  | none =>
    ((⟨int64.wrap (s.tables.entries.length + 1), p.AccountID, p.Amount⟩, none),
      ⟨⟨s.tables.balances,
          s.tables.entries ++ [⟨int64.wrap (s.tables.entries.length + 1), p.AccountID, p.Amount⟩],
          s.tables.transfers⟩,
        s.saved, s.faults.tail⟩)

/-- Modelled from the spec: `AddAccountBalance(accountID, signedDelta) →
Account` adds the delta to the stored balance and returns the updated row in
one step.  It fails when there is no such account, and when the sum does not
fit the 64-bit column. -/
def AddAccountBalance (p : AddAccountBalanceParams) (s : MemStore) :
    (Account × Option GoError) × MemStore :=
  match s.fault with
  | some e => ((default, some e), s.advance)
  | none =>
    match s.tables.balances p.ID with
    | none => ((default, some ⟨"sql: no rows in result set"⟩), s.advance)
    | some b =>
      if h : -9223372036854775808 ≤ b.val + p.Amount.val ∧
          b.val + p.Amount.val < 9223372036854775808 then
        ((⟨p.ID, ⟨b.val + p.Amount.val, h⟩⟩, none),
          ⟨⟨fun id => if id = p.ID then some ⟨b.val + p.Amount.val, h⟩ else s.tables.balances id,
              s.tables.entries, s.tables.transfers⟩,
            s.saved, s.faults.tail⟩)
      else ((default, some ⟨"pq: bigint out of range"⟩), s.advance)

/-- The accessor of the reference backend. -/
def queries : Queries MemStore :=
  ⟨CreateTransfer, CreateEntry, AddAccountBalance⟩

/-- The transaction primitives of the reference backend. -/
def db : DB MemStore :=
  ⟨BeginTx, Rollback, Commit⟩

/-- The balance stored for an account. -/
def balance (s : MemStore) (id : int64) : Option int64 :=
  s.tables.balances id

/-- A store with the given accounts (ID and balance), no entries, no
transfers, no open transaction, and the given injected failures. -/
def ofAccounts (accounts : List (Int × Int)) (faults : List (Option GoError)) : MemStore :=
  ⟨⟨fun id => (accounts.find? fun a => a.1 = id.val).map fun a => int64.wrap a.2, [], []⟩,
    none, faults⟩

end MemStore

/-! ## Reading the trace -/

/-- The calls of a trace, without their outcomes. -/
def calls (t : List Event) : List Call :=
  t.map Event.call

/-- The five write steps are the calls on the query accessor. -/
def Call.isWrite : Call → Bool
  | Call.CreateTransfer _ => true
  | Call.CreateEntry _ => true
  | Call.AddAccountBalance _ => true
  | _ => false

/-- Whether the call is a `CreateEntry`. -/
def Call.isCreateEntry : Call → Bool
  | Call.CreateEntry _ => true
  | _ => false

/-- Whether the call is an `AddAccountBalance`. -/
def Call.isAddAccountBalance : Call → Bool
  | Call.AddAccountBalance _ => true
  | _ => false

/-- The write steps of a trace. -/
def writes (t : List Event) : List Event :=
  t.filter fun ev => ev.call.isWrite

/-- The `CreateEntry` calls of a trace. -/
def entryCalls (t : List Event) : List Event :=
  t.filter fun ev => ev.call.isCreateEntry

/-- The `AddAccountBalance` calls of a trace. -/
def balanceCalls (t : List Event) : List Event :=
  t.filter fun ev => ev.call.isAddAccountBalance

/-- The balance update `TransferTx` issues first (lines 132 to 136 of
`store.go`). -/
def firstUpdate (arg : TransferTxParams) : AddAccountBalanceParams :=
  if arg.FromAccountID < arg.ToAccountID then ⟨arg.FromAccountID, arg.Amount.neg⟩
  else ⟨arg.ToAccountID, arg.Amount⟩

/-- The balance update `TransferTx` issues second. -/
def secondUpdate (arg : TransferTxParams) : AddAccountBalanceParams :=
  if arg.FromAccountID < arg.ToAccountID then ⟨arg.ToAccountID, arg.Amount⟩
  else ⟨arg.FromAccountID, arg.Amount.neg⟩

/-- The `CreateTransfer` call of the callback (line 57 of `store.go`), on the
state `BeginTx` leaves. -/
def transferStep {σ : Type} (db : DB σ) (q : Queries σ) (arg : TransferTxParams) (s : σ) :
    (Transfer × Option GoError) × σ :=
  q.CreateTransfer ⟨arg.FromAccountID, arg.ToAccountID, arg.Amount⟩ (db.BeginTx s).2

/-- The debit `CreateEntry` call (line 66), on the state `CreateTransfer`
leaves. -/
def fromEntryStep {σ : Type} (db : DB σ) (q : Queries σ) (arg : TransferTxParams) (s : σ) :
    (Entry × Option GoError) × σ :=
  q.CreateEntry ⟨arg.FromAccountID, arg.Amount.neg⟩ (transferStep db q arg s).2

/-- The credit `CreateEntry` call (line 74), on the state the debit leaves. -/
def toEntryStep {σ : Type} (db : DB σ) (q : Queries σ) (arg : TransferTxParams) (s : σ) :
    (Entry × Option GoError) × σ :=
  q.CreateEntry ⟨arg.ToAccountID, arg.Amount⟩ (fromEntryStep db q arg s).2

/-- The first `AddAccountBalance` call of `addMoney` (line 152), on the state
the credit leaves. -/
def firstUpdateStep {σ : Type} (db : DB σ) (q : Queries σ) (arg : TransferTxParams) (s : σ) :
    (Account × Option GoError) × σ :=
  q.AddAccountBalance (firstUpdate arg) (toEntryStep db q arg s).2

/-- The second `AddAccountBalance` call of `addMoney` (line 160), on the
state the first leaves. -/
def secondUpdateStep {σ : Type} (db : DB σ) (q : Queries σ) (arg : TransferTxParams) (s : σ) :
    (Account × Option GoError) × σ :=
  q.AddAccountBalance (secondUpdate arg) (firstUpdateStep db q arg s).2

/-- The outcome of a call whose callback returned the error `e` in backend
state `s`, having made the calls `tr`, with `result` assigned so far. -/
def abortedWith {σ : Type} (db : DB σ) (result : TransferTxResult) (e : GoError) (s : σ)
    (tr : List Event) : Outcome σ :=
  ⟨result,
    (match (db.Rollback s).1 with
      | some rbErr => some (rollbackFailure e rbErr)
      | none => some e),
    (db.Rollback s).2, tr ++ [⟨Call.Rollback, (db.Rollback s).1⟩]⟩

/-! ## Assumptions on the collaborators -/

/-- `AddAccountBalance` is an atomic add-and-return on the stored balance and
nothing else writes balances: `bal s id` is the balance stored for account
`id` in state `s`, absent when there is no such account. -/
structure AtomicBalances {σ : Type} (db : DB σ) (q : Queries σ)
    (bal : σ → int64 → Option int64) : Prop where
  beginTx : ∀ s, (db.BeginTx s).1 = none → bal (db.BeginTx s).2 = bal s
  commit : ∀ s, (db.Commit s).1 = none → bal (db.Commit s).2 = bal s
  createTransfer : ∀ p s, (q.CreateTransfer p s).1.2 = none →
    bal (q.CreateTransfer p s).2 = bal s
  createEntry : ∀ p s, (q.CreateEntry p s).1.2 = none → bal (q.CreateEntry p s).2 = bal s
  addAccountBalance : ∀ p s, (q.AddAccountBalance p s).1.2 = none →
    (q.AddAccountBalance p s).1.1.ID = p.ID ∧
    (∃ b, bal s p.ID = some b ∧
      (q.AddAccountBalance p s).1.1.Balance.val = b.val + p.Amount.val) ∧
    ∀ id, bal (q.AddAccountBalance p s).2 id =
      if id = p.ID then some (q.AddAccountBalance p s).1.1.Balance else bal s id

/-- A successful rollback restores the pre-transaction store: `view s` is what
can be read from the store in state `s`, and `pre s` is what could be read
when the transaction open in `s` began. -/
structure RollbackRestores {σ V : Type} (db : DB σ) (q : Queries σ)
    (view : σ → V) (pre : σ → Option V) : Prop where
  beginTx : ∀ s, (db.BeginTx s).1 = none → pre (db.BeginTx s).2 = some (view s)
  createTransfer : ∀ p s, pre (q.CreateTransfer p s).2 = pre s
  createEntry : ∀ p s, pre (q.CreateEntry p s).2 = pre s
  addAccountBalance : ∀ p s, pre (q.AddAccountBalance p s).2 = pre s
  rollback : ∀ s, (db.Rollback s).1 = none → some (view (db.Rollback s).2) = pre s

/-! ## Concrete inputs -/

/-- Account 1 with balance 100 and account 2 with balance 50. -/
def twoAccounts : MemStore := MemStore.ofAccounts [(1, 100), (2, 50)] []

/-- The store `twoAccounts` in which the call number `n` (counting from 0:
`BeginTx` is 0, the five write steps are 1 to 5, `Commit` or `Rollback` is the
last) fails with the error `boom`. -/
def twoAccountsFailingAt (n : Nat) : MemStore :=
  MemStore.ofAccounts [(1, 100), (2, 50)] (List.replicate n none ++ [some ⟨"boom"⟩])

/-- Transfer 30 from account 1 to account 2. -/
def transfer30 : TransferTxParams := ⟨int64.wrap 1, int64.wrap 2, int64.wrap 30⟩

/-- Transfer 30 from account 2 to account 1. -/
def transfer30Back : TransferTxParams := ⟨int64.wrap 2, int64.wrap 1, int64.wrap 30⟩

/-- Accounts 1 and 2, both with balance 0. -/
def twoEmptyAccounts : MemStore := MemStore.ofAccounts [(1, 0), (2, 0)] []

/-- Transfer the amount `-2^63` from account 1 to account 2. -/
def transferMinValue : TransferTxParams := ⟨int64.wrap 1, int64.wrap 2, int64.minValue⟩

/-- Account 1 with balance 100. -/
def oneAccount : MemStore := MemStore.ofAccounts [(1, 100)] []

/-- Transfer 30 from account 1 to itself. -/
def selfTransfer30 : TransferTxParams := ⟨int64.wrap 1, int64.wrap 1, int64.wrap 30⟩

/-! ## Lemmas -/

/-- Away from `-2^63`, Go's negation is the negation of integers. -/
theorem int64.neg_val (x : int64) (h : x.val ≠ -9223372036854775808) :
    x.neg.val = -x.val := by
  have hx := x.property
  show (-x.val + 9223372036854775808) % 18446744073709551616 - 9223372036854775808 = -x.val
  omega

/-- Go's negation of `-2^63` is `-2^63`. -/
theorem int64.neg_val_min (x : int64) (h : x.val = -9223372036854775808) :
    x.neg.val = -9223372036854775808 := by
  show (-x.val + 9223372036854775808) % 18446744073709551616 - 9223372036854775808 = _
  omega

/-- The two cases of Go's negation. -/
theorem int64.neg_val_cases (x : int64) :
    x.neg.val = -x.val ∨
      (x.val = -9223372036854775808 ∧ x.neg.val = -9223372036854775808) := by
  by_cases h : x.val = -9223372036854775808
  · exact Or.inr ⟨h, int64.neg_val_min x h⟩
  · exact Or.inl (int64.neg_val x h)

/-- The fields of the zero-value result are zero values. -/
@[simp] theorem TransferTxResult.default_Transfer :
    (default : TransferTxResult).Transfer = default := rfl

@[simp] theorem TransferTxResult.default_FromAccount :
    (default : TransferTxResult).FromAccount = default := rfl

@[simp] theorem TransferTxResult.default_ToAccount :
    (default : TransferTxResult).ToAccount = default := rfl

@[simp] theorem TransferTxResult.default_FromEntry :
    (default : TransferTxResult).FromEntry = default := rfl

@[simp] theorem TransferTxResult.default_ToEntry :
    (default : TransferTxResult).ToEntry = default := rfl

/-- Every run of `TransferTx` has one of seven shapes: the transaction cannot
be opened; one of the five write steps fails and the transaction is rolled
back; or the five write steps succeed and the transaction is committed. -/
theorem TransferTx_cases {σ : Type} (db : DB σ) (q : Queries σ) (arg : TransferTxParams)
    (s : σ) :
    ∃ eb s1 t et s2 fe efe s3 te ete s4 a1 e1 s5 a2 e2 s6,
      db.BeginTx s = (eb, s1) ∧
      q.CreateTransfer ⟨arg.FromAccountID, arg.ToAccountID, arg.Amount⟩ s1 = ((t, et), s2) ∧
      q.CreateEntry ⟨arg.FromAccountID, arg.Amount.neg⟩ s2 = ((fe, efe), s3) ∧
      q.CreateEntry ⟨arg.ToAccountID, arg.Amount⟩ s3 = ((te, ete), s4) ∧
      q.AddAccountBalance (firstUpdate arg) s4 = ((a1, e1), s5) ∧
      q.AddAccountBalance (secondUpdate arg) s5 = ((a2, e2), s6) ∧
      ((∃ e, eb = some e ∧
          TransferTx db q arg s = ⟨default, some e, s1, [⟨Call.BeginTx, some e⟩]⟩) ∨
        (∃ e, eb = none ∧ et = some e ∧
          TransferTx db q arg s =
            abortedWith db ⟨t, default, default, default, default⟩ e s2
              [⟨Call.BeginTx, none⟩,
                ⟨Call.CreateTransfer ⟨arg.FromAccountID, arg.ToAccountID, arg.Amount⟩,
                  some e⟩]) ∨
        (∃ e, eb = none ∧ et = none ∧ efe = some e ∧
          TransferTx db q arg s =
            abortedWith db ⟨t, default, default, fe, default⟩ e s3
              [⟨Call.BeginTx, none⟩,
                ⟨Call.CreateTransfer ⟨arg.FromAccountID, arg.ToAccountID, arg.Amount⟩, none⟩,
                ⟨Call.CreateEntry ⟨arg.FromAccountID, arg.Amount.neg⟩, some e⟩]) ∨
        (∃ e, eb = none ∧ et = none ∧ efe = none ∧ ete = some e ∧
          TransferTx db q arg s =
            abortedWith db ⟨t, default, default, fe, te⟩ e s4
              [⟨Call.BeginTx, none⟩,
                ⟨Call.CreateTransfer ⟨arg.FromAccountID, arg.ToAccountID, arg.Amount⟩, none⟩,
                ⟨Call.CreateEntry ⟨arg.FromAccountID, arg.Amount.neg⟩, none⟩,
                ⟨Call.CreateEntry ⟨arg.ToAccountID, arg.Amount⟩, some e⟩]) ∨
        (∃ e, eb = none ∧ et = none ∧ efe = none ∧ ete = none ∧ e1 = some e ∧
          TransferTx db q arg s =
            abortedWith db
              (if arg.FromAccountID < arg.ToAccountID then ⟨t, a1, default, fe, te⟩
                else ⟨t, default, a1, fe, te⟩) e s5
              [⟨Call.BeginTx, none⟩,
                ⟨Call.CreateTransfer ⟨arg.FromAccountID, arg.ToAccountID, arg.Amount⟩, none⟩,
                ⟨Call.CreateEntry ⟨arg.FromAccountID, arg.Amount.neg⟩, none⟩,
                ⟨Call.CreateEntry ⟨arg.ToAccountID, arg.Amount⟩, none⟩,
                ⟨Call.AddAccountBalance (firstUpdate arg), some e⟩]) ∨
        (∃ e, eb = none ∧ et = none ∧ efe = none ∧ ete = none ∧ e1 = none ∧ e2 = some e ∧
          TransferTx db q arg s =
            abortedWith db
              (if arg.FromAccountID < arg.ToAccountID then ⟨t, a1, a2, fe, te⟩
                else ⟨t, a2, a1, fe, te⟩) e s6
              [⟨Call.BeginTx, none⟩,
                ⟨Call.CreateTransfer ⟨arg.FromAccountID, arg.ToAccountID, arg.Amount⟩, none⟩,
                ⟨Call.CreateEntry ⟨arg.FromAccountID, arg.Amount.neg⟩, none⟩,
                ⟨Call.CreateEntry ⟨arg.ToAccountID, arg.Amount⟩, none⟩,
                ⟨Call.AddAccountBalance (firstUpdate arg), none⟩,
                ⟨Call.AddAccountBalance (secondUpdate arg), some e⟩]) ∨
        (eb = none ∧ et = none ∧ efe = none ∧ ete = none ∧ e1 = none ∧ e2 = none ∧
          TransferTx db q arg s =
            ⟨if arg.FromAccountID < arg.ToAccountID then ⟨t, a1, a2, fe, te⟩
                else ⟨t, a2, a1, fe, te⟩,
              (db.Commit s6).1, (db.Commit s6).2,
              [⟨Call.BeginTx, none⟩,
                ⟨Call.CreateTransfer ⟨arg.FromAccountID, arg.ToAccountID, arg.Amount⟩, none⟩,
                ⟨Call.CreateEntry ⟨arg.FromAccountID, arg.Amount.neg⟩, none⟩,
                ⟨Call.CreateEntry ⟨arg.ToAccountID, arg.Amount⟩, none⟩,
                ⟨Call.AddAccountBalance (firstUpdate arg), none⟩,
                ⟨Call.AddAccountBalance (secondUpdate arg), none⟩,
                ⟨Call.Commit, (db.Commit s6).1⟩]⟩)) := by
  rcases hb : db.BeginTx s with ⟨eb, s1⟩
  rcases ht : q.CreateTransfer ⟨arg.FromAccountID, arg.ToAccountID, arg.Amount⟩ s1 with
    ⟨⟨t, et⟩, s2⟩
  rcases hfe : q.CreateEntry ⟨arg.FromAccountID, arg.Amount.neg⟩ s2 with ⟨⟨fe, efe⟩, s3⟩
  rcases hte : q.CreateEntry ⟨arg.ToAccountID, arg.Amount⟩ s3 with ⟨⟨te, ete⟩, s4⟩
  rcases h1 : q.AddAccountBalance (firstUpdate arg) s4 with ⟨⟨a1, e1⟩, s5⟩
  rcases h2 : q.AddAccountBalance (secondUpdate arg) s5 with ⟨⟨a2, e2⟩, s6⟩
  refine ⟨eb, s1, t, et, s2, fe, efe, s3, te, ete, s4, a1, e1, s5, a2, e2, s6,
    rfl, ht, hfe, hte, h1, h2, ?_⟩
  cases eb with
  | some e => simp [TransferTx, execTx, World.exec, hb]
  | none =>
    cases et with
    | some e =>
      simp only [TransferTx, execTx, World.exec, hb, TransferTx.fn, World.query, ht,
        abortedWith]
      cases (db.Rollback s2).1 <;> simp
    | none =>
      cases efe with
      | some e =>
        simp only [TransferTx, execTx, World.exec, hb, TransferTx.fn, World.query, ht, hfe,
          abortedWith]
        cases (db.Rollback s3).1 <;> simp
      | none =>
        cases ete with
        | some e =>
          simp only [TransferTx, execTx, World.exec, hb, TransferTx.fn, World.query, ht, hfe,
            hte, abortedWith]
          cases (db.Rollback s4).1 <;> simp
        | none =>
          by_cases hlt : arg.FromAccountID < arg.ToAccountID
          · simp only [firstUpdate, secondUpdate, hlt, if_true] at h1 h2
            cases e1 with
            | some e =>
              simp only [TransferTx, execTx, World.exec, hb, TransferTx.fn, World.query, ht,
                hfe, hte, addMoney, h1, hlt, if_true, abortedWith, firstUpdate]
              cases (db.Rollback s5).1 <;> simp
            | none =>
              cases e2 with
              | some e =>
                simp only [TransferTx, execTx, World.exec, hb, TransferTx.fn, World.query, ht,
                  hfe, hte, addMoney, h1, h2, hlt, if_true, abortedWith, firstUpdate,
                  secondUpdate]
                cases (db.Rollback s6).1 <;> simp
              | none =>
                simp [TransferTx, execTx, World.exec, hb, TransferTx.fn, World.query, ht,
                  hfe, hte, addMoney, h1, h2, hlt, firstUpdate, secondUpdate]
          · simp only [firstUpdate, secondUpdate, hlt, if_false] at h1 h2
            cases e1 with
            | some e =>
              simp only [TransferTx, execTx, World.exec, hb, TransferTx.fn, World.query, ht,
                hfe, hte, addMoney, h1, hlt, if_false, abortedWith, firstUpdate]
              cases (db.Rollback s5).1 <;> simp
            | none =>
              cases e2 with
              | some e =>
                simp only [TransferTx, execTx, World.exec, hb, TransferTx.fn, World.query, ht,
                  hfe, hte, addMoney, h1, h2, hlt, if_false, abortedWith, firstUpdate,
                  secondUpdate]
                cases (db.Rollback s6).1 <;> simp
              | none =>
                simp [TransferTx, execTx, World.exec, hb, TransferTx.fn, World.query, ht,
                  hfe, hte, addMoney, h1, h2, hlt, firstUpdate, secondUpdate]

/-- A rolled-back call returns a non-nil error, whether or not the rollback
succeeds. -/
theorem abortedWith_err {σ : Type} (db : DB σ) (result : TransferTxResult) (e : GoError)
    (s : σ) (tr : List Event) : (abortedWith db result e s tr).err ≠ none := by
  simp only [abortedWith]
  split <;> simp

/-- When the rollback of an aborted call succeeds, what can be read from the
store afterwards is what could be read when the transaction began. -/
theorem abortedWith_restores {σ V : Type} (db : DB σ) (q : Queries σ) (view : σ → V)
    (pre : σ → Option V) (laws : RollbackRestores db q view pre)
    (result : TransferTxResult) (e : GoError) (s : σ) (tr : List Event) (v : V)
    (hpre : pre s = some v) (htr : Call.Rollback ∉ calls tr)
    (hrb : ⟨Call.Rollback, none⟩ ∈ (abortedWith db result e s tr).trace) :
    view (abortedWith db result e s tr).st = v := by
  simp only [abortedWith, List.mem_append, List.mem_singleton] at hrb ⊢
  have hr : (db.Rollback s).1 = none := by
    rcases hrb with h | h
    · exact absurd (List.mem_map_of_mem Event.call h) htr
    · exact (congrArg Event.err h).symm
  have := laws.rollback s hr
  rw [hpre] at this
  exact Option.some.inj this

/-- A call that returns a nil error has made no call that failed, and
conversely. -/
theorem TransferTx_err_none_iff {σ : Type} (db : DB σ) (q : Queries σ)
    (arg : TransferTxParams) (s : σ) :
    (TransferTx db q arg s).err = none ↔ ∀ ev ∈ (TransferTx db q arg s).trace, ev.err = none := by
  obtain ⟨eb, s1, t, et, s2, fe, efe, s3, te, ete, s4, a1, e1, s5, a2, e2, s6, -, -, -, -, -,
    -, hcases⟩ := TransferTx_cases db q arg s
  rcases hcases with ⟨e, -, h⟩ | ⟨e, -, -, h⟩ | ⟨e, -, -, -, h⟩ | ⟨e, -, -, -, -, h⟩ |
    ⟨e, -, -, -, -, -, h⟩ | ⟨e, -, -, -, -, -, -, h⟩ | ⟨-, -, -, -, -, -, h⟩
  · rw [h]; simp
  all_goals first
    | (rw [h]
       constructor
       · intro h0
         exact absurd h0 (abortedWith_err _ _ _ _ _)
       · intro h0
         simp [abortedWith] at h0)
    | (rw [h]; simp)

/-- A call of `TransferTx` that returns a nil error has run the seven steps
with success, and its result, final state and trace are those of the steps. -/
theorem TransferTx_ok {σ : Type} (db : DB σ) (q : Queries σ) (arg : TransferTxParams) (s : σ)
    (h : (TransferTx db q arg s).err = none) :
    ∃ s1 s2 s3 s4 s5 s6 s7 t fe te a1 a2,
      db.BeginTx s = (none, s1) ∧
      q.CreateTransfer ⟨arg.FromAccountID, arg.ToAccountID, arg.Amount⟩ s1 = ((t, none), s2) ∧
      q.CreateEntry ⟨arg.FromAccountID, arg.Amount.neg⟩ s2 = ((fe, none), s3) ∧
      q.CreateEntry ⟨arg.ToAccountID, arg.Amount⟩ s3 = ((te, none), s4) ∧
      q.AddAccountBalance (firstUpdate arg) s4 = ((a1, none), s5) ∧
      q.AddAccountBalance (secondUpdate arg) s5 = ((a2, none), s6) ∧
      db.Commit s6 = (none, s7) ∧
      (TransferTx db q arg s).st = s7 ∧
      (TransferTx db q arg s).result =
        (if arg.FromAccountID < arg.ToAccountID then ⟨t, a1, a2, fe, te⟩
          else ⟨t, a2, a1, fe, te⟩) ∧
      (TransferTx db q arg s).trace =
        [⟨Call.BeginTx, none⟩,
          ⟨Call.CreateTransfer ⟨arg.FromAccountID, arg.ToAccountID, arg.Amount⟩, none⟩,
          ⟨Call.CreateEntry ⟨arg.FromAccountID, arg.Amount.neg⟩, none⟩,
          ⟨Call.CreateEntry ⟨arg.ToAccountID, arg.Amount⟩, none⟩,
          ⟨Call.AddAccountBalance (firstUpdate arg), none⟩,
          ⟨Call.AddAccountBalance (secondUpdate arg), none⟩,
          ⟨Call.Commit, none⟩] := by
  obtain ⟨eb, s1, t, et, s2, fe, efe, s3, te, ete, s4, a1, e1, s5, a2, e2, s6, hb, ht, hfe,
    hte, h1, h2, hcases⟩ := TransferTx_cases db q arg s
  rcases hcases with ⟨e, -, hx⟩ | ⟨e, -, -, hx⟩ | ⟨e, -, -, -, hx⟩ | ⟨e, -, -, -, -, hx⟩ |
    ⟨e, -, -, -, -, -, hx⟩ | ⟨e, -, -, -, -, -, -, hx⟩ | ⟨rfl, rfl, rfl, rfl, rfl, rfl, hx⟩
  · rw [hx] at h
    simp at h
  · rw [hx] at h
    exact absurd h (abortedWith_err _ _ _ _ _)
  · rw [hx] at h
    exact absurd h (abortedWith_err _ _ _ _ _)
  · rw [hx] at h
    exact absurd h (abortedWith_err _ _ _ _ _)
  · rw [hx] at h
    exact absurd h (abortedWith_err _ _ _ _ _)
  · rw [hx] at h
    exact absurd h (abortedWith_err _ _ _ _ _)
  · rw [hx] at h ⊢
    simp only at h
    refine ⟨s1, s2, s3, s4, s5, s6, (db.Commit s6).2, t, fe, te, a1, a2, hb, ht, hfe, hte, h1,
      h2, Prod.ext h rfl, rfl, rfl, ?_⟩
    simp [h]

/-- What the balance laws give along a successful run: the balances seen by
the first update are those before the call, and the stored balances after the
call are those left by the second update. -/
theorem TransferTx_ok_balances {σ : Type} (db : DB σ) (q : Queries σ)
    (bal : σ → int64 → Option int64) (laws : AtomicBalances db q bal)
    (arg : TransferTxParams) (s : σ) (h : (TransferTx db q arg s).err = none) :
    ∃ a1 a2 b1 b2,
      (TransferTx db q arg s).result.FromAccount =
        (if arg.FromAccountID < arg.ToAccountID then a1 else a2) ∧
      (TransferTx db q arg s).result.ToAccount =
        (if arg.FromAccountID < arg.ToAccountID then a2 else a1) ∧
      bal s (firstUpdate arg).ID = some b1 ∧
      a1.Balance.val = b1.val + (firstUpdate arg).Amount.val ∧
      (if (secondUpdate arg).ID = (firstUpdate arg).ID then some a1.Balance
        else bal s (secondUpdate arg).ID) = some b2 ∧
      a2.Balance.val = b2.val + (secondUpdate arg).Amount.val ∧
      ∀ id, bal (TransferTx db q arg s).st id =
        if id = (secondUpdate arg).ID then some a2.Balance
        else if id = (firstUpdate arg).ID then some a1.Balance else bal s id := by
  obtain ⟨s1, s2, s3, s4, s5, s6, s7, t, fe, te, a1, a2, hb, ht, hfe, hte, h1, h2, hc, hst,
    hres, -⟩ := TransferTx_ok db q arg s h
  have e1 : bal s1 = bal s := by simpa [hb] using laws.beginTx s (by simp [hb])
  have e2 : bal s2 = bal s1 := by
    have := laws.createTransfer ⟨arg.FromAccountID, arg.ToAccountID, arg.Amount⟩ s1
    rw [ht] at this
    exact this rfl
  have e3 : bal s3 = bal s2 := by
    have := laws.createEntry ⟨arg.FromAccountID, arg.Amount.neg⟩ s2
    rw [hfe] at this
    exact this rfl
  have e4 : bal s4 = bal s3 := by
    have := laws.createEntry ⟨arg.ToAccountID, arg.Amount⟩ s3
    rw [hte] at this
    exact this rfl
  have e7 : bal s7 = bal s6 := by simpa [hc] using laws.commit s6 (by simp [hc])
  have l1 := laws.addAccountBalance (firstUpdate arg) s4 (by simp [h1])
  have l2 := laws.addAccountBalance (secondUpdate arg) s5 (by simp [h2])
  rw [h1] at l1
  rw [h2] at l2
  simp only at l1 l2
  obtain ⟨-, ⟨b1, hb1, hv1⟩, hu1⟩ := l1
  obtain ⟨-, ⟨b2, hb2, hv2⟩, hu2⟩ := l2
  have e40 : bal s4 = bal s := by rw [e4, e3, e2, e1]
  rw [e40] at hb1 hu1
  rw [hu1] at hb2
  refine ⟨a1, a2, b1, b2, ?_, ?_, hb1, hv1, hb2, hv2, ?_⟩
  · rw [hres]; split <;> rfl
  · rw [hres]; split <;> rfl
  · intro id
    rw [hst, e7, hu2, hu1]

/-- The reference backend adds atomically and has no other writer. -/
theorem MemStore.atomicBalances :
    AtomicBalances MemStore.db MemStore.queries MemStore.balance := by
  refine ⟨?_, ?_, ?_, ?_, ?_⟩
  · intro s h
    simp only [MemStore.db, MemStore.BeginTx] at h ⊢
    split at h
    · simp at h
    · rfl
  · intro s h
    simp only [MemStore.db, MemStore.Commit] at h ⊢
    split at h
    · simp at h
    · split at h
      · simp at h
      · rfl
  · intro p s h
    simp only [MemStore.queries, MemStore.CreateTransfer] at h ⊢
    split at h
    · simp at h
    · rfl
  · intro p s h
    simp only [MemStore.queries, MemStore.CreateEntry] at h ⊢
    split at h
    · simp at h
    · rfl
  · intro p s h
    simp only [MemStore.queries, MemStore.AddAccountBalance] at h ⊢
    split at h
    · simp at h
    · split at h
      · simp at h
      · rename_i b hb
        split at h
        · rename_i hr
          simp only [hb, hr, dite_true, MemStore.balance]
          simp
        · simp at h

/-- In the reference backend a successful rollback restores the tables of the
moment the transaction began. -/
theorem MemStore.rollbackRestores :
    RollbackRestores MemStore.db MemStore.queries MemStore.tables MemStore.saved := by
  refine ⟨?_, ?_, ?_, ?_, ?_⟩
  · intro s h
    simp only [MemStore.db, MemStore.BeginTx] at h ⊢
    split at h <;> simp_all
  · intro p s
    simp only [MemStore.queries, MemStore.CreateTransfer]
    split <;> simp [MemStore.advance]
  · intro p s
    simp only [MemStore.queries, MemStore.CreateEntry]
    split <;> simp [MemStore.advance]
  · intro p s
    simp only [MemStore.queries, MemStore.AddAccountBalance]
    split
    · simp [MemStore.advance]
    · split
      · simp [MemStore.advance]
      · split <;> simp [MemStore.advance]
  · intro s h
    simp only [MemStore.db, MemStore.Rollback] at h ⊢
    split at h
    · simp at h
    · split at h <;> simp_all

/-! ## The claims -/

/-- C1 (amended): balance conservation.  `AddAccountBalance` is an atomic
add-and-return on the stored balance and there is no other writer.  For every
`TransferTx` call with `FromAccountID ≠ ToAccountID` on two existing accounts
and with `Amount` other than `-2^63`, in which every write step and the commit
succeed, the returned `ToAccount.Balance` minus the destination's balance
before the call is `Amount`, the returned `FromAccount.Balance` minus the
source's balance before the call is `-Amount`, and the sum of the two stored
balances after the call is their sum before the call. -/
theorem TransferTx_conserves_balances {σ : Type} (db : DB σ) (q : Queries σ)
    (bal : σ → int64 → Option int64) (laws : AtomicBalances db q bal)
    (arg : TransferTxParams) (s : σ) (beforeFrom beforeTo : int64)
    (hne : arg.FromAccountID ≠ arg.ToAccountID)
    (hFrom : bal s arg.FromAccountID = some beforeFrom)
    (hTo : bal s arg.ToAccountID = some beforeTo)
    (hAmount : arg.Amount ≠ int64.minValue)
    (hok : (TransferTx db q arg s).err = none) :
    (TransferTx db q arg s).result.ToAccount.Balance.val - beforeTo.val = arg.Amount.val ∧
    (TransferTx db q arg s).result.FromAccount.Balance.val - beforeFrom.val
      = -arg.Amount.val ∧
    ∃ afterFrom afterTo,
      bal (TransferTx db q arg s).st arg.FromAccountID = some afterFrom ∧
      bal (TransferTx db q arg s).st arg.ToAccountID = some afterTo ∧
      afterFrom.val + afterTo.val = beforeFrom.val + beforeTo.val := by
  obtain ⟨a1, a2, b1, b2, hF, hT, hb1, hv1, hb2, hv2, hfin⟩ :=
    TransferTx_ok_balances db q bal laws arg s hok
  have hneg : arg.Amount.neg.val = -arg.Amount.val :=
    int64.neg_val arg.Amount (fun h => hAmount (Subtype.ext h))
  have hne2 : arg.ToAccountID ≠ arg.FromAccountID := fun h => hne h.symm
  rw [hF, hT, hfin, hfin]
  by_cases hlt : arg.FromAccountID < arg.ToAccountID
  · simp only [firstUpdate, secondUpdate, hlt, if_true, hne, hne2, if_false, hFrom, hTo,
      Option.some.injEq] at *
    subst hb1 hb2
    exact ⟨by omega, by omega, a1.Balance, a2.Balance, rfl, rfl, by omega⟩
  · simp only [firstUpdate, secondUpdate, hlt, if_true, hne, hne2, if_false, hFrom, hTo,
      Option.some.injEq] at *
    subst hb1 hb2
    exact ⟨by omega, by omega, a2.Balance, a1.Balance, rfl, rfl, by omega⟩

/-- Witness of C1: 30 from account 1 (balance 100) to account 2 (balance 50). -/
theorem TransferTx_conserves_balances_witness :
    (TransferTx MemStore.db MemStore.queries transfer30 twoAccounts).result.ToAccount.Balance.val
        - (int64.wrap 50).val = transfer30.Amount.val ∧
    (TransferTx MemStore.db MemStore.queries transfer30 twoAccounts).result.FromAccount.Balance.val
        - (int64.wrap 100).val = -transfer30.Amount.val ∧
    ∃ afterFrom afterTo,
      MemStore.balance (TransferTx MemStore.db MemStore.queries transfer30 twoAccounts).st
        transfer30.FromAccountID = some afterFrom ∧
      MemStore.balance (TransferTx MemStore.db MemStore.queries transfer30 twoAccounts).st
        transfer30.ToAccountID = some afterTo ∧
      afterFrom.val + afterTo.val = (int64.wrap 100).val + (int64.wrap 50).val :=
  TransferTx_conserves_balances MemStore.db MemStore.queries MemStore.balance
    MemStore.atomicBalances transfer30 twoAccounts (int64.wrap 100) (int64.wrap 50)
    (by decide) (by decide) (by decide) (by decide) (by decide)

/-- Counterexample to C1 as stated: with `Amount = -2^63`, whose negation in
`int64` is `-2^63` again, a transfer from account 1 to account 2 (both with
balance 0) succeeds at every step and leaves both stored balances at `-2^63`:
their sum is `-2^64`, not the sum `0` before the call. -/
theorem TransferTx_conservation_fails_at_minValue :
    transferMinValue.FromAccountID ≠ transferMinValue.ToAccountID ∧
    MemStore.balance twoEmptyAccounts transferMinValue.FromAccountID = some int64.zero ∧
    MemStore.balance twoEmptyAccounts transferMinValue.ToAccountID = some int64.zero ∧
    (TransferTx MemStore.db MemStore.queries transferMinValue twoEmptyAccounts).err = none ∧
    (TransferTx MemStore.db MemStore.queries transferMinValue twoEmptyAccounts).trace.map
      Event.err = [none, none, none, none, none, none, none] ∧
    MemStore.balance (TransferTx MemStore.db MemStore.queries transferMinValue twoEmptyAccounts).st
      transferMinValue.FromAccountID = some int64.minValue ∧
    MemStore.balance (TransferTx MemStore.db MemStore.queries transferMinValue twoEmptyAccounts).st
      transferMinValue.ToAccountID = some int64.minValue ∧
    int64.minValue.val + int64.minValue.val ≠ int64.zero.val + int64.zero.val := by
  decide

/-- C2: atomicity.  A successful rollback restores the pre-transaction store.
For every `TransferTx` call in which one of the five write steps fails,
`TransferTx` returns a non-nil error, `Rollback` is called and `Commit` is not,
and when the rollback succeeds what can be read from the store after the call
is what could be read before it. -/
theorem TransferTx_atomic {σ V : Type} (db : DB σ) (q : Queries σ) (view : σ → V)
    (pre : σ → Option V) (laws : RollbackRestores db q view pre)
    (arg : TransferTxParams) (s : σ)
    (hfail : ∃ ev ∈ (TransferTx db q arg s).trace, ev.call.isWrite = true ∧ ev.err ≠ none) :
    (TransferTx db q arg s).err ≠ none ∧
    Call.Rollback ∈ calls (TransferTx db q arg s).trace ∧
    Call.Commit ∉ calls (TransferTx db q arg s).trace ∧
    (⟨Call.Rollback, none⟩ ∈ (TransferTx db q arg s).trace →
      view (TransferTx db q arg s).st = view s) := by
  obtain ⟨eb, s1, t, et, s2, fe, efe, s3, te, ete, s4, a1, e1, s5, a2, e2, s6, hb, ht, hfe,
    hte, h1, h2, hcases⟩ := TransferTx_cases db q arg s
  have p1 : eb = none → pre s1 = some (view s) := by
    intro h
    have := laws.beginTx s
    rw [hb] at this
    exact this h
  have p2 : pre s2 = pre s1 := by
    have := laws.createTransfer ⟨arg.FromAccountID, arg.ToAccountID, arg.Amount⟩ s1
    rwa [ht] at this
  have p3 : pre s3 = pre s2 := by
    have := laws.createEntry ⟨arg.FromAccountID, arg.Amount.neg⟩ s2
    rwa [hfe] at this
  have p4 : pre s4 = pre s3 := by
    have := laws.createEntry ⟨arg.ToAccountID, arg.Amount⟩ s3
    rwa [hte] at this
  have p5 : pre s5 = pre s4 := by
    have := laws.addAccountBalance (firstUpdate arg) s4
    rwa [h1] at this
  have p6 : pre s6 = pre s5 := by
    have := laws.addAccountBalance (secondUpdate arg) s5
    rwa [h2] at this
  rcases hcases with ⟨e, -, h⟩ | ⟨e, hb0, -, h⟩ | ⟨e, hb0, -, -, h⟩ | ⟨e, hb0, -, -, -, h⟩ |
    ⟨e, hb0, -, -, -, -, h⟩ | ⟨e, hb0, -, -, -, -, -, h⟩ | ⟨-, -, -, -, -, -, h⟩
  · rw [h] at hfail
    simp [Call.isWrite] at hfail
  · rw [h]
    refine ⟨abortedWith_err _ _ _ _ _, by simp [abortedWith, calls],
      by simp [abortedWith, calls], ?_⟩
    exact abortedWith_restores db q view pre laws _ _ _ _ _ (by rw [p2, p1 hb0])
      (by simp [calls])
  · rw [h]
    refine ⟨abortedWith_err _ _ _ _ _, by simp [abortedWith, calls],
      by simp [abortedWith, calls], ?_⟩
    exact abortedWith_restores db q view pre laws _ _ _ _ _ (by rw [p3, p2, p1 hb0])
      (by simp [calls])
  · rw [h]
    refine ⟨abortedWith_err _ _ _ _ _, by simp [abortedWith, calls],
      by simp [abortedWith, calls], ?_⟩
    exact abortedWith_restores db q view pre laws _ _ _ _ _ (by rw [p4, p3, p2, p1 hb0])
      (by simp [calls])
  · rw [h]
    refine ⟨abortedWith_err _ _ _ _ _, by simp [abortedWith, calls],
      by simp [abortedWith, calls], ?_⟩
    exact abortedWith_restores db q view pre laws _ _ _ _ _
      (by rw [p5, p4, p3, p2, p1 hb0]) (by simp [calls])
  · rw [h]
    refine ⟨abortedWith_err _ _ _ _ _, by simp [abortedWith, calls],
      by simp [abortedWith, calls], ?_⟩
    exact abortedWith_restores db q view pre laws _ _ _ _ _
      (by rw [p6, p5, p4, p3, p2, p1 hb0]) (by simp [calls])
  · rw [h] at hfail
    simp [Call.isWrite] at hfail

/-- Witness of C2: the second balance update fails after four successful
writes. -/
theorem TransferTx_atomic_witness :
    (TransferTx MemStore.db MemStore.queries transfer30 (twoAccountsFailingAt 5)).err ≠ none ∧
    Call.Rollback ∈
      calls (TransferTx MemStore.db MemStore.queries transfer30 (twoAccountsFailingAt 5)).trace ∧
    Call.Commit ∉
      calls (TransferTx MemStore.db MemStore.queries transfer30 (twoAccountsFailingAt 5)).trace ∧
    (⟨Call.Rollback, none⟩ ∈
        (TransferTx MemStore.db MemStore.queries transfer30 (twoAccountsFailingAt 5)).trace →
      (TransferTx MemStore.db MemStore.queries transfer30 (twoAccountsFailingAt 5)).st.tables =
        (twoAccountsFailingAt 5).tables) :=
  TransferTx_atomic MemStore.db MemStore.queries MemStore.tables MemStore.saved
    MemStore.rollbackRestores transfer30 (twoAccountsFailingAt 5)
    ⟨⟨Call.AddAccountBalance ⟨int64.wrap 2, int64.wrap 30⟩, some ⟨"boom"⟩⟩, by decide, by decide⟩

/-- The result and the calls made: the zero-value result when the
transaction cannot be opened, what `CreateTransfer` returned in
`result.Transfer` otherwise, and the zero value in every field whose step does
not occur among the write calls made.  A call that returns a nil error has
made five write calls, and no call it made failed. -/
theorem TransferTx_result_by_trace {σ : Type} (db : DB σ) (q : Queries σ)
    (arg : TransferTxParams) (s : σ) :
    ((db.BeginTx s).1 ≠ none →
      (TransferTx db q arg s).result = default ∧
      (TransferTx db q arg s).err = (db.BeginTx s).1) ∧
    ((db.BeginTx s).1 = none →
      (TransferTx db q arg s).result.Transfer =
        (q.CreateTransfer ⟨arg.FromAccountID, arg.ToAccountID, arg.Amount⟩
          (db.BeginTx s).2).1.1) ∧
    ((writes (TransferTx db q arg s).trace).length ≤ 1 →
      (TransferTx db q arg s).result.FromEntry = default) ∧
    ((writes (TransferTx db q arg s).trace).length ≤ 2 →
      (TransferTx db q arg s).result.ToEntry = default) ∧
    ((writes (TransferTx db q arg s).trace).length ≤ 3 →
      (TransferTx db q arg s).result.FromAccount = default ∧
      (TransferTx db q arg s).result.ToAccount = default) ∧
    ((writes (TransferTx db q arg s).trace).length ≤ 4 →
      (if arg.FromAccountID < arg.ToAccountID then (TransferTx db q arg s).result.ToAccount
        else (TransferTx db q arg s).result.FromAccount) = default) ∧
    ((TransferTx db q arg s).err = none →
      (writes (TransferTx db q arg s).trace).length = 5 ∧
      ∀ ev ∈ (TransferTx db q arg s).trace, ev.err = none) := by
  obtain ⟨eb, s1, t, et, s2, fe, efe, s3, te, ete, s4, a1, e1, s5, a2, e2, s6, hb, ht, hfe,
    hte, h1, h2, hcases⟩ := TransferTx_cases db q arg s
  have hiff := TransferTx_err_none_iff db q arg s
  rw [hb]
  simp only [ht]
  rcases hcases with ⟨e, rfl, h⟩ | ⟨e, rfl, -, h⟩ | ⟨e, rfl, -, -, h⟩ | ⟨e, rfl, -, -, -, h⟩ |
    ⟨e, rfl, -, -, -, -, h⟩ | ⟨e, rfl, -, -, -, -, -, h⟩ | ⟨rfl, -, -, -, -, -, h⟩
  · rw [h]
    simp [writes, Call.isWrite]
  · rw [h] at hiff ⊢
    have herr := abortedWith_err db ⟨t, default, default, default, default⟩ e s2
      [⟨Call.BeginTx, none⟩,
        ⟨Call.CreateTransfer ⟨arg.FromAccountID, arg.ToAccountID, arg.Amount⟩, some e⟩]
    simp [writes, Call.isWrite, abortedWith] at herr ⊢
    exact fun h0 => absurd h0 herr
  · rw [h] at hiff ⊢
    have herr := abortedWith_err db ⟨t, default, default, fe, default⟩ e s3
      [⟨Call.BeginTx, none⟩,
        ⟨Call.CreateTransfer ⟨arg.FromAccountID, arg.ToAccountID, arg.Amount⟩, none⟩,
        ⟨Call.CreateEntry ⟨arg.FromAccountID, arg.Amount.neg⟩, some e⟩]
    simp [writes, Call.isWrite, abortedWith] at herr ⊢
    exact fun h0 => absurd h0 herr
  · rw [h] at hiff ⊢
    have herr := abortedWith_err db ⟨t, default, default, fe, te⟩ e s4
      [⟨Call.BeginTx, none⟩,
        ⟨Call.CreateTransfer ⟨arg.FromAccountID, arg.ToAccountID, arg.Amount⟩, none⟩,
        ⟨Call.CreateEntry ⟨arg.FromAccountID, arg.Amount.neg⟩, none⟩,
        ⟨Call.CreateEntry ⟨arg.ToAccountID, arg.Amount⟩, some e⟩]
    simp [writes, Call.isWrite, abortedWith] at herr ⊢
    exact fun h0 => absurd h0 herr
  · rw [h] at hiff ⊢
    have herr := abortedWith_err db
      (if arg.FromAccountID < arg.ToAccountID then ⟨t, a1, default, fe, te⟩
        else ⟨t, default, a1, fe, te⟩) e s5
      [⟨Call.BeginTx, none⟩,
        ⟨Call.CreateTransfer ⟨arg.FromAccountID, arg.ToAccountID, arg.Amount⟩, none⟩,
        ⟨Call.CreateEntry ⟨arg.FromAccountID, arg.Amount.neg⟩, none⟩,
        ⟨Call.CreateEntry ⟨arg.ToAccountID, arg.Amount⟩, none⟩,
        ⟨Call.AddAccountBalance (firstUpdate arg), some e⟩]
    by_cases hlt : arg.FromAccountID < arg.ToAccountID
    · simp [writes, Call.isWrite, abortedWith, hlt] at herr ⊢
      exact fun h0 => absurd h0 herr
    · simp [writes, Call.isWrite, abortedWith, hlt] at herr ⊢
      exact fun h0 => absurd h0 herr
  · rw [h] at hiff ⊢
    have herr := abortedWith_err db
      (if arg.FromAccountID < arg.ToAccountID then ⟨t, a1, a2, fe, te⟩
        else ⟨t, a2, a1, fe, te⟩) e s6
      [⟨Call.BeginTx, none⟩,
        ⟨Call.CreateTransfer ⟨arg.FromAccountID, arg.ToAccountID, arg.Amount⟩, none⟩,
        ⟨Call.CreateEntry ⟨arg.FromAccountID, arg.Amount.neg⟩, none⟩,
        ⟨Call.CreateEntry ⟨arg.ToAccountID, arg.Amount⟩, none⟩,
        ⟨Call.AddAccountBalance (firstUpdate arg), none⟩,
        ⟨Call.AddAccountBalance (secondUpdate arg), some e⟩]
    by_cases hlt : arg.FromAccountID < arg.ToAccountID
    · simp [writes, Call.isWrite, abortedWith, hlt] at herr ⊢
      exact fun h0 => absurd h0 herr
    · simp [writes, Call.isWrite, abortedWith, hlt] at herr ⊢
      exact fun h0 => absurd h0 herr
  · rw [h] at hiff ⊢
    by_cases hlt : arg.FromAccountID < arg.ToAccountID
    · simp [writes, Call.isWrite, hlt] at hiff ⊢
    · simp [writes, Call.isWrite, hlt] at hiff ⊢

/-- The result, step by step: each field holds what its step returned when
that step ran, also when the step failed or a later one did, and is the zero
value when its step was not reached; a failed step gives a non-nil error, and
when the five write steps succeed the error is that of `Commit`. -/
theorem TransferTx_result_by_steps {σ : Type} (db : DB σ) (q : Queries σ)
    (arg : TransferTxParams) (s : σ) (hopen : (db.BeginTx s).1 = none) :
    (TransferTx db q arg s).result.Transfer = (transferStep db q arg s).1.1 ∧
    ((transferStep db q arg s).1.2 ≠ none →
      (TransferTx db q arg s).err ≠ none ∧
      (TransferTx db q arg s).result.FromEntry = default ∧
      (TransferTx db q arg s).result.ToEntry = default ∧
      (TransferTx db q arg s).result.FromAccount = default ∧
      (TransferTx db q arg s).result.ToAccount = default) ∧
    ((transferStep db q arg s).1.2 = none →
      (TransferTx db q arg s).result.FromEntry = (fromEntryStep db q arg s).1.1 ∧
      ((fromEntryStep db q arg s).1.2 ≠ none →
        (TransferTx db q arg s).err ≠ none ∧
        (TransferTx db q arg s).result.ToEntry = default ∧
        (TransferTx db q arg s).result.FromAccount = default ∧
        (TransferTx db q arg s).result.ToAccount = default) ∧
      ((fromEntryStep db q arg s).1.2 = none →
        (TransferTx db q arg s).result.ToEntry = (toEntryStep db q arg s).1.1 ∧
        ((toEntryStep db q arg s).1.2 ≠ none →
          (TransferTx db q arg s).err ≠ none ∧
          (TransferTx db q arg s).result.FromAccount = default ∧
          (TransferTx db q arg s).result.ToAccount = default) ∧
        ((toEntryStep db q arg s).1.2 = none →
          (if arg.FromAccountID < arg.ToAccountID then (TransferTx db q arg s).result.FromAccount
            else (TransferTx db q arg s).result.ToAccount) = (firstUpdateStep db q arg s).1.1 ∧
          ((firstUpdateStep db q arg s).1.2 ≠ none →
            (TransferTx db q arg s).err ≠ none ∧
            (if arg.FromAccountID < arg.ToAccountID then (TransferTx db q arg s).result.ToAccount
              else (TransferTx db q arg s).result.FromAccount) = default) ∧
          ((firstUpdateStep db q arg s).1.2 = none →
            (if arg.FromAccountID < arg.ToAccountID then (TransferTx db q arg s).result.ToAccount
              else (TransferTx db q arg s).result.FromAccount) =
                (secondUpdateStep db q arg s).1.1 ∧
            ((secondUpdateStep db q arg s).1.2 ≠ none → (TransferTx db q arg s).err ≠ none) ∧
            ((secondUpdateStep db q arg s).1.2 = none →
              (TransferTx db q arg s).err =
                (db.Commit (secondUpdateStep db q arg s).2).1))))) := by
  obtain ⟨eb, s1, t, et, s2, fe, efe, s3, te, ete, s4, a1, e1, s5, a2, e2, s6, hb, ht, hfe,
    hte, h1, h2, hcases⟩ := TransferTx_cases db q arg s
  have g0 : (db.BeginTx s).2 = s1 := by rw [hb]
  have g1 : transferStep db q arg s = ((t, et), s2) := by rw [transferStep, g0, ht]
  have g2 : fromEntryStep db q arg s = ((fe, efe), s3) := by rw [fromEntryStep, g1, hfe]
  have g3 : toEntryStep db q arg s = ((te, ete), s4) := by rw [toEntryStep, g2, hte]
  have g4 : firstUpdateStep db q arg s = ((a1, e1), s5) := by rw [firstUpdateStep, g3, h1]
  have g5 : secondUpdateStep db q arg s = ((a2, e2), s6) := by rw [secondUpdateStep, g4, h2]
  rw [hb] at hopen
  rw [g1, g2, g3, g4, g5]
  simp only at hopen
  subst hopen
  rcases hcases with ⟨e, hx, -⟩ | ⟨e, -, rfl, h⟩ | ⟨e, -, rfl, rfl, h⟩ |
    ⟨e, -, rfl, rfl, rfl, h⟩ | ⟨e, -, rfl, rfl, rfl, rfl, h⟩ |
    ⟨e, -, rfl, rfl, rfl, rfl, rfl, h⟩ | ⟨-, rfl, rfl, rfl, rfl, rfl, h⟩
  · simp at hx
  · rw [h]
    have herr := abortedWith_err db ⟨t, default, default, default, default⟩ e s2
      [⟨Call.BeginTx, none⟩,
        ⟨Call.CreateTransfer ⟨arg.FromAccountID, arg.ToAccountID, arg.Amount⟩, some e⟩]
    simp [abortedWith] at herr ⊢
    exact herr
  · rw [h]
    have herr := abortedWith_err db ⟨t, default, default, fe, default⟩ e s3
      [⟨Call.BeginTx, none⟩,
        ⟨Call.CreateTransfer ⟨arg.FromAccountID, arg.ToAccountID, arg.Amount⟩, none⟩,
        ⟨Call.CreateEntry ⟨arg.FromAccountID, arg.Amount.neg⟩, some e⟩]
    simp [abortedWith] at herr ⊢
    exact herr
  · rw [h]
    have herr := abortedWith_err db ⟨t, default, default, fe, te⟩ e s4
      [⟨Call.BeginTx, none⟩,
        ⟨Call.CreateTransfer ⟨arg.FromAccountID, arg.ToAccountID, arg.Amount⟩, none⟩,
        ⟨Call.CreateEntry ⟨arg.FromAccountID, arg.Amount.neg⟩, none⟩,
        ⟨Call.CreateEntry ⟨arg.ToAccountID, arg.Amount⟩, some e⟩]
    simp [abortedWith] at herr ⊢
    exact herr
  · rw [h]
    have herr := abortedWith_err db
      (if arg.FromAccountID < arg.ToAccountID then ⟨t, a1, default, fe, te⟩
        else ⟨t, default, a1, fe, te⟩) e s5
      [⟨Call.BeginTx, none⟩,
        ⟨Call.CreateTransfer ⟨arg.FromAccountID, arg.ToAccountID, arg.Amount⟩, none⟩,
        ⟨Call.CreateEntry ⟨arg.FromAccountID, arg.Amount.neg⟩, none⟩,
        ⟨Call.CreateEntry ⟨arg.ToAccountID, arg.Amount⟩, none⟩,
        ⟨Call.AddAccountBalance (firstUpdate arg), some e⟩]
    by_cases hlt : arg.FromAccountID < arg.ToAccountID
    · simp [abortedWith, hlt] at herr ⊢
      exact herr
    · simp [abortedWith, hlt] at herr ⊢
      exact herr
  · rw [h]
    have herr := abortedWith_err db
      (if arg.FromAccountID < arg.ToAccountID then ⟨t, a1, a2, fe, te⟩
        else ⟨t, a2, a1, fe, te⟩) e s6
      [⟨Call.BeginTx, none⟩,
        ⟨Call.CreateTransfer ⟨arg.FromAccountID, arg.ToAccountID, arg.Amount⟩, none⟩,
        ⟨Call.CreateEntry ⟨arg.FromAccountID, arg.Amount.neg⟩, none⟩,
        ⟨Call.CreateEntry ⟨arg.ToAccountID, arg.Amount⟩, none⟩,
        ⟨Call.AddAccountBalance (firstUpdate arg), none⟩,
        ⟨Call.AddAccountBalance (secondUpdate arg), some e⟩]
    by_cases hlt : arg.FromAccountID < arg.ToAccountID
    · simp [abortedWith, hlt] at herr ⊢
      exact herr
    · simp [abortedWith, hlt] at herr ⊢
      exact herr
  · rw [h]
    by_cases hlt : arg.FromAccountID < arg.ToAccountID
    · simp [hlt]
    · simp [hlt]

/-- C3 (amended): the result returned with an error.  When the transaction
cannot be opened, `TransferTx` returns the zero-value result and the error of
`BeginTx`.  Otherwise the result keeps what the steps that ran returned, also
when the step itself, a later step, the rollback or the commit fails:
`Transfer` is what `CreateTransfer` returned, `FromEntry` and `ToEntry` what
the two `CreateEntry` calls returned, and the two account fields what the two
`AddAccountBalance` calls returned (the first update goes to `FromAccount`
when `FromAccountID < ToAccountID` and to `ToAccount` otherwise).  A failed
write step gives a non-nil error, and the fields assigned by steps after it
are the zero value.  When the five write steps succeed the error is that of
`Commit`, so after a failed `Commit` all five fields are set next to the
error.  A call that returns a nil error has made five write calls, and no call
it made failed. -/
theorem TransferTx_result_on_error {σ : Type} (db : DB σ) (q : Queries σ)
    (arg : TransferTxParams) (s : σ) :
    ((db.BeginTx s).1 ≠ none →
      (TransferTx db q arg s).result = default ∧
      (TransferTx db q arg s).err = (db.BeginTx s).1) ∧
    ((db.BeginTx s).1 = none →
      (TransferTx db q arg s).result.Transfer = (transferStep db q arg s).1.1 ∧
      ((transferStep db q arg s).1.2 ≠ none →
        (TransferTx db q arg s).err ≠ none ∧
        (TransferTx db q arg s).result.FromEntry = default ∧
        (TransferTx db q arg s).result.ToEntry = default ∧
        (TransferTx db q arg s).result.FromAccount = default ∧
        (TransferTx db q arg s).result.ToAccount = default) ∧
      ((transferStep db q arg s).1.2 = none →
        (TransferTx db q arg s).result.FromEntry = (fromEntryStep db q arg s).1.1 ∧
        ((fromEntryStep db q arg s).1.2 ≠ none →
          (TransferTx db q arg s).err ≠ none ∧
          (TransferTx db q arg s).result.ToEntry = default ∧
          (TransferTx db q arg s).result.FromAccount = default ∧
          (TransferTx db q arg s).result.ToAccount = default) ∧
        ((fromEntryStep db q arg s).1.2 = none →
          (TransferTx db q arg s).result.ToEntry = (toEntryStep db q arg s).1.1 ∧
          ((toEntryStep db q arg s).1.2 ≠ none →
            (TransferTx db q arg s).err ≠ none ∧
            (TransferTx db q arg s).result.FromAccount = default ∧
            (TransferTx db q arg s).result.ToAccount = default) ∧
          ((toEntryStep db q arg s).1.2 = none →
            (if arg.FromAccountID < arg.ToAccountID then (TransferTx db q arg s).result.FromAccount
              else (TransferTx db q arg s).result.ToAccount) = (firstUpdateStep db q arg s).1.1 ∧
            ((firstUpdateStep db q arg s).1.2 ≠ none →
              (TransferTx db q arg s).err ≠ none ∧
              (if arg.FromAccountID < arg.ToAccountID then (TransferTx db q arg s).result.ToAccount
                else (TransferTx db q arg s).result.FromAccount) = default) ∧
            ((firstUpdateStep db q arg s).1.2 = none →
              (if arg.FromAccountID < arg.ToAccountID then (TransferTx db q arg s).result.ToAccount
                else (TransferTx db q arg s).result.FromAccount) =
                  (secondUpdateStep db q arg s).1.1 ∧
              ((secondUpdateStep db q arg s).1.2 ≠ none → (TransferTx db q arg s).err ≠ none) ∧
              ((secondUpdateStep db q arg s).1.2 = none →
                (TransferTx db q arg s).err =
                  (db.Commit (secondUpdateStep db q arg s).2).1)))))) ∧
    ((writes (TransferTx db q arg s).trace).length ≤ 1 →
      (TransferTx db q arg s).result.FromEntry = default) ∧
    ((writes (TransferTx db q arg s).trace).length ≤ 2 →
      (TransferTx db q arg s).result.ToEntry = default) ∧
    ((writes (TransferTx db q arg s).trace).length ≤ 3 →
      (TransferTx db q arg s).result.FromAccount = default ∧
      (TransferTx db q arg s).result.ToAccount = default) ∧
    ((writes (TransferTx db q arg s).trace).length ≤ 4 →
      (if arg.FromAccountID < arg.ToAccountID then (TransferTx db q arg s).result.ToAccount
        else (TransferTx db q arg s).result.FromAccount) = default) ∧
    ((TransferTx db q arg s).err = none →
      (writes (TransferTx db q arg s).trace).length = 5 ∧
      ∀ ev ∈ (TransferTx db q arg s).trace, ev.err = none) :=
  ⟨(TransferTx_result_by_trace db q arg s).1, TransferTx_result_by_steps db q arg s,
    (TransferTx_result_by_trace db q arg s).2.2⟩

/-- Witness of C3 (amended): only `Commit` fails; the five fields hold what
the five write steps returned and the error is that of `Commit`. -/
theorem TransferTx_result_on_error_witness :
    (TransferTx MemStore.db MemStore.queries transfer30 (twoAccountsFailingAt 6)).result.Transfer =
      (transferStep MemStore.db MemStore.queries transfer30 (twoAccountsFailingAt 6)).1.1 ∧
    (TransferTx MemStore.db MemStore.queries transfer30 (twoAccountsFailingAt 6)).result.FromEntry =
      (fromEntryStep MemStore.db MemStore.queries transfer30 (twoAccountsFailingAt 6)).1.1 ∧
    (TransferTx MemStore.db MemStore.queries transfer30 (twoAccountsFailingAt 6)).result.ToEntry =
      (toEntryStep MemStore.db MemStore.queries transfer30 (twoAccountsFailingAt 6)).1.1 ∧
    (if transfer30.FromAccountID < transfer30.ToAccountID then
        (TransferTx MemStore.db MemStore.queries transfer30
          (twoAccountsFailingAt 6)).result.FromAccount
      else
        (TransferTx MemStore.db MemStore.queries transfer30
          (twoAccountsFailingAt 6)).result.ToAccount) =
      (firstUpdateStep MemStore.db MemStore.queries transfer30 (twoAccountsFailingAt 6)).1.1 ∧
    (if transfer30.FromAccountID < transfer30.ToAccountID then
        (TransferTx MemStore.db MemStore.queries transfer30
          (twoAccountsFailingAt 6)).result.ToAccount
      else
        (TransferTx MemStore.db MemStore.queries transfer30
          (twoAccountsFailingAt 6)).result.FromAccount) =
      (secondUpdateStep MemStore.db MemStore.queries transfer30 (twoAccountsFailingAt 6)).1.1 ∧
    (TransferTx MemStore.db MemStore.queries transfer30 (twoAccountsFailingAt 6)).err =
      (MemStore.db.Commit
        (secondUpdateStep MemStore.db MemStore.queries transfer30
          (twoAccountsFailingAt 6)).2).1 :=
  have h := (TransferTx_result_on_error MemStore.db MemStore.queries transfer30
    (twoAccountsFailingAt 6)).2.1 (by decide)
  have h1 := h.2.2 (by decide)
  have h2 := h1.2.2 (by decide)
  have h3 := h2.2.2 (by decide)
  have h4 := h3.2.2 (by decide)
  ⟨h.1, h1.1, h2.1, h3.1, h4.1, h4.2.2 (by decide)⟩

/-- Counterexample to C3 as stated.  When the debit `CreateEntry` fails,
`TransferTx` returns the error together with a result whose `Transfer` field
holds the transfer record created by the step before.  When only `Commit`
fails, `TransferTx` returns the error together with a result in which all five
fields are set. -/
theorem TransferTx_keeps_records_on_error :
    ((TransferTx MemStore.db MemStore.queries transfer30 (twoAccountsFailingAt 2)).err =
        some ⟨"boom"⟩ ∧
      (TransferTx MemStore.db MemStore.queries transfer30
        (twoAccountsFailingAt 2)).result.Transfer =
        ⟨int64.wrap 1, int64.wrap 1, int64.wrap 2, int64.wrap 30⟩ ∧
      (TransferTx MemStore.db MemStore.queries transfer30 (twoAccountsFailingAt 2)).result ≠
        default) ∧
    ((TransferTx MemStore.db MemStore.queries transfer30 (twoAccountsFailingAt 6)).err =
        some ⟨"boom"⟩ ∧
      (TransferTx MemStore.db MemStore.queries transfer30 (twoAccountsFailingAt 6)).result =
        ⟨⟨int64.wrap 1, int64.wrap 1, int64.wrap 2, int64.wrap 30⟩,
          ⟨int64.wrap 1, int64.wrap 70⟩, ⟨int64.wrap 2, int64.wrap 80⟩,
          ⟨int64.wrap 1, int64.wrap 1, int64.wrap (-30)⟩,
          ⟨int64.wrap 2, int64.wrap 2, int64.wrap 30⟩⟩ ∧
      (TransferTx MemStore.db MemStore.queries transfer30 (twoAccountsFailingAt 6)).result ≠
        default) := by
  decide

/-- C4: lock ordering.  In every `TransferTx` call that reaches the
balance-update step, the `AddAccountBalance` calls are issued in ascending
account-ID order: the first targets the smaller of the two IDs and the second,
issued when the first has succeeded, targets the larger; the call on the source
carries `-Amount` (Go's `int64` negation) and the call on the destination
carries `Amount`. -/
theorem TransferTx_update_order {σ : Type} (db : DB σ) (q : Queries σ)
    (arg : TransferTxParams) (s : σ)
    (hreach : balanceCalls (TransferTx db q arg s).trace ≠ []) :
    ∃ first second : AddAccountBalanceParams,
      first.ID.val = min arg.FromAccountID.val arg.ToAccountID.val ∧
      second.ID.val = max arg.FromAccountID.val arg.ToAccountID.val ∧
      ((first = ⟨arg.FromAccountID, arg.Amount.neg⟩ ∧ second = ⟨arg.ToAccountID, arg.Amount⟩) ∨
        (first = ⟨arg.ToAccountID, arg.Amount⟩ ∧
          second = ⟨arg.FromAccountID, arg.Amount.neg⟩)) ∧
      ((∃ e, balanceCalls (TransferTx db q arg s).trace =
            [⟨Call.AddAccountBalance first, some e⟩]) ∨
        (∃ r, balanceCalls (TransferTx db q arg s).trace =
            [⟨Call.AddAccountBalance first, none⟩, ⟨Call.AddAccountBalance second, r⟩])) := by
  obtain ⟨eb, s1, t, et, s2, fe, efe, s3, te, ete, s4, a1, e1, s5, a2, e2, s6, -, -, -, -, -,
    -, hcases⟩ := TransferTx_cases db q arg s
  refine ⟨firstUpdate arg, secondUpdate arg, ?_, ?_, ?_, ?_⟩
  · by_cases hlt : arg.FromAccountID < arg.ToAccountID
    · simp only [firstUpdate, hlt, if_true]
      exact (min_eq_left (le_of_lt hlt)).symm
    · simp only [firstUpdate, hlt, if_false]
      exact (min_eq_right (not_lt.mp hlt)).symm
  · by_cases hlt : arg.FromAccountID < arg.ToAccountID
    · simp only [secondUpdate, hlt, if_true]
      exact (max_eq_right (le_of_lt hlt)).symm
    · simp only [secondUpdate, hlt, if_false]
      exact (max_eq_left (not_lt.mp hlt)).symm
  · by_cases hlt : arg.FromAccountID < arg.ToAccountID
    · simp [firstUpdate, secondUpdate, hlt]
    · simp [firstUpdate, secondUpdate, hlt]
  · rcases hcases with ⟨e, -, h⟩ | ⟨e, -, -, h⟩ | ⟨e, -, -, -, h⟩ | ⟨e, -, -, -, -, h⟩ |
      ⟨e, -, -, -, -, -, h⟩ | ⟨e, -, -, -, -, -, -, h⟩ | ⟨-, -, -, -, -, -, h⟩
    · rw [h] at hreach
      simp [balanceCalls, Call.isAddAccountBalance] at hreach
    · rw [h] at hreach
      simp [balanceCalls, Call.isAddAccountBalance, abortedWith] at hreach
    · rw [h] at hreach
      simp [balanceCalls, Call.isAddAccountBalance, abortedWith] at hreach
    · rw [h] at hreach
      simp [balanceCalls, Call.isAddAccountBalance, abortedWith] at hreach
    · rw [h]
      simp [balanceCalls, Call.isAddAccountBalance, abortedWith]
    · rw [h]
      simp [balanceCalls, Call.isAddAccountBalance, abortedWith]
    · rw [h]
      simp [balanceCalls, Call.isAddAccountBalance]

/-- Witness of C4: a transfer from account 2 to account 1 updates account 1
first. -/
theorem TransferTx_update_order_witness :
    ∃ first second : AddAccountBalanceParams,
      first.ID.val = min transfer30Back.FromAccountID.val transfer30Back.ToAccountID.val ∧
      second.ID.val = max transfer30Back.FromAccountID.val transfer30Back.ToAccountID.val ∧
      ((first = ⟨transfer30Back.FromAccountID, transfer30Back.Amount.neg⟩ ∧
          second = ⟨transfer30Back.ToAccountID, transfer30Back.Amount⟩) ∨
        (first = ⟨transfer30Back.ToAccountID, transfer30Back.Amount⟩ ∧
          second = ⟨transfer30Back.FromAccountID, transfer30Back.Amount.neg⟩)) ∧
      ((∃ e, balanceCalls
            (TransferTx MemStore.db MemStore.queries transfer30Back twoAccounts).trace =
            [⟨Call.AddAccountBalance first, some e⟩]) ∨
        (∃ r, balanceCalls
            (TransferTx MemStore.db MemStore.queries transfer30Back twoAccounts).trace =
            [⟨Call.AddAccountBalance first, none⟩, ⟨Call.AddAccountBalance second, r⟩])) :=
  TransferTx_update_order MemStore.db MemStore.queries transfer30Back twoAccounts (by decide)

/-- C5: result field correctness.  If `AddAccountBalance` returns the row of
the account whose ID it was given, every successful `TransferTx` call returns
`FromAccount.ID = arg.FromAccountID` and `ToAccount.ID = arg.ToAccountID`,
whichever of the two accounts is updated first. -/
theorem TransferTx_result_account_ids {σ : Type} (db : DB σ) (q : Queries σ)
    (hrow : ∀ p s, (q.AddAccountBalance p s).1.2 = none →
      (q.AddAccountBalance p s).1.1.ID = p.ID)
    (arg : TransferTxParams) (s : σ) (hok : (TransferTx db q arg s).err = none) :
    (TransferTx db q arg s).result.FromAccount.ID = arg.FromAccountID ∧
    (TransferTx db q arg s).result.ToAccount.ID = arg.ToAccountID := by
  obtain ⟨s1, s2, s3, s4, s5, s6, s7, t, fe, te, a1, a2, -, -, -, -, h1, h2, -, -, hres, -⟩ :=
    TransferTx_ok db q arg s hok
  have r1 := hrow (firstUpdate arg) s4
  have r2 := hrow (secondUpdate arg) s5
  rw [h1] at r1
  rw [h2] at r2
  have i1 : a1.ID = (firstUpdate arg).ID := r1 rfl
  have i2 : a2.ID = (secondUpdate arg).ID := r2 rfl
  rw [hres]
  by_cases hlt : arg.FromAccountID < arg.ToAccountID
  · simp only [firstUpdate, secondUpdate, hlt, if_true] at i1 i2 ⊢
    exact ⟨i1, i2⟩
  · simp only [firstUpdate, secondUpdate, hlt, if_false] at i1 i2 ⊢
    exact ⟨i2, i1⟩

/-- Witness of C5, with the destination updated first (2 to 1). -/
theorem TransferTx_result_account_ids_witness :
    (TransferTx MemStore.db MemStore.queries transfer30Back twoAccounts).result.FromAccount.ID
        = transfer30Back.FromAccountID ∧
    (TransferTx MemStore.db MemStore.queries transfer30Back twoAccounts).result.ToAccount.ID
        = transfer30Back.ToAccountID :=
  TransferTx_result_account_ids MemStore.db MemStore.queries
    (fun p s h => (MemStore.atomicBalances.addAccountBalance p s h).1)
    transfer30Back twoAccounts (by decide)

/-- C6: entry symmetry.  If `CreateEntry` returns an entry with the account ID
and the amount it was given, then for every `TransferTx` call whose two
`CreateEntry` steps succeed, `FromEntry.Amount == -ToEntry.Amount` (Go's
`int64` negation), `FromEntry` is on `arg.FromAccountID` with amount
`-arg.Amount`, `ToEntry` is on `arg.ToAccountID` with amount `arg.Amount`, and
the call makes exactly two `CreateEntry` calls: the debit, then the credit.
Go's negation is the negation of integers unless `Amount` is `-2^63`. -/
theorem TransferTx_entry_symmetry {σ : Type} (db : DB σ) (q : Queries σ)
    (hecho : ∀ p s, (q.CreateEntry p s).1.2 = none →
      (q.CreateEntry p s).1.1.AccountID = p.AccountID ∧
      (q.CreateEntry p s).1.1.Amount = p.Amount)
    (arg : TransferTxParams) (s : σ)
    (hentries : 2 ≤ ((entryCalls (TransferTx db q arg s).trace).filter
      fun ev => ev.err.isNone).length) :
    (TransferTx db q arg s).result.FromEntry.Amount =
      (TransferTx db q arg s).result.ToEntry.Amount.neg ∧
    (TransferTx db q arg s).result.FromEntry.AccountID = arg.FromAccountID ∧
    (TransferTx db q arg s).result.FromEntry.Amount = arg.Amount.neg ∧
    (TransferTx db q arg s).result.ToEntry.AccountID = arg.ToAccountID ∧
    (TransferTx db q arg s).result.ToEntry.Amount = arg.Amount ∧
    calls (entryCalls (TransferTx db q arg s).trace) =
      [Call.CreateEntry ⟨arg.FromAccountID, arg.Amount.neg⟩,
        Call.CreateEntry ⟨arg.ToAccountID, arg.Amount⟩] ∧
    (arg.Amount ≠ int64.minValue →
      (TransferTx db q arg s).result.FromEntry.Amount.val =
        -(TransferTx db q arg s).result.ToEntry.Amount.val) := by
  obtain ⟨eb, s1, t, et, s2, fe, efe, s3, te, ete, s4, a1, e1, s5, a2, e2, s6, -, -, hfe,
    hte, -, -, hcases⟩ := TransferTx_cases db q arg s
  have k1 := hecho ⟨arg.FromAccountID, arg.Amount.neg⟩ s2
  have k2 := hecho ⟨arg.ToAccountID, arg.Amount⟩ s3
  rw [hfe] at k1
  rw [hte] at k2
  simp only at k1 k2
  rcases hcases with ⟨e, -, h⟩ | ⟨e, -, -, h⟩ | ⟨e, -, -, -, h⟩ | ⟨e, -, -, -, -, h⟩ |
    ⟨e, -, -, c1, c2, -, h⟩ | ⟨e, -, -, c1, c2, -, -, h⟩ | ⟨-, -, c1, c2, -, -, h⟩
  · rw [h] at hentries
    simp [entryCalls, Call.isCreateEntry] at hentries
  · rw [h] at hentries
    simp [entryCalls, Call.isCreateEntry, abortedWith] at hentries
  · rw [h] at hentries
    simp [entryCalls, Call.isCreateEntry, abortedWith] at hentries
  · rw [h] at hentries
    simp [entryCalls, Call.isCreateEntry, abortedWith] at hentries
  all_goals
    obtain ⟨k11, k12⟩ := k1 c1
    obtain ⟨k21, k22⟩ := k2 c2
    have hz : arg.Amount ≠ int64.minValue → arg.Amount.neg.val = -arg.Amount.val :=
      fun hm => int64.neg_val arg.Amount (fun hv => hm (Subtype.ext hv))
    rw [h]
    by_cases hlt : arg.FromAccountID < arg.ToAccountID
    · simpa [entryCalls, Call.isCreateEntry, abortedWith, calls, hlt, k11, k12, k21, k22]
        using hz
    · simpa [entryCalls, Call.isCreateEntry, abortedWith, calls, hlt, k11, k12, k21, k22]
        using hz

/-- Witness of C6: both entries are created and the first balance update
fails afterwards. -/
theorem TransferTx_entry_symmetry_witness :
    (TransferTx MemStore.db MemStore.queries transfer30 (twoAccountsFailingAt 4)).result.FromEntry.Amount =
      (TransferTx MemStore.db MemStore.queries transfer30
        (twoAccountsFailingAt 4)).result.ToEntry.Amount.neg ∧
    (TransferTx MemStore.db MemStore.queries transfer30
      (twoAccountsFailingAt 4)).result.FromEntry.AccountID = transfer30.FromAccountID ∧
    (TransferTx MemStore.db MemStore.queries transfer30
      (twoAccountsFailingAt 4)).result.FromEntry.Amount = transfer30.Amount.neg ∧
    (TransferTx MemStore.db MemStore.queries transfer30
      (twoAccountsFailingAt 4)).result.ToEntry.AccountID = transfer30.ToAccountID ∧
    (TransferTx MemStore.db MemStore.queries transfer30
      (twoAccountsFailingAt 4)).result.ToEntry.Amount = transfer30.Amount ∧
    calls (entryCalls (TransferTx MemStore.db MemStore.queries transfer30
      (twoAccountsFailingAt 4)).trace) =
      [Call.CreateEntry ⟨transfer30.FromAccountID, transfer30.Amount.neg⟩,
        Call.CreateEntry ⟨transfer30.ToAccountID, transfer30.Amount⟩] ∧
    (transfer30.Amount ≠ int64.minValue →
      (TransferTx MemStore.db MemStore.queries transfer30
        (twoAccountsFailingAt 4)).result.FromEntry.Amount.val =
        -(TransferTx MemStore.db MemStore.queries transfer30
          (twoAccountsFailingAt 4)).result.ToEntry.Amount.val) :=
  TransferTx_entry_symmetry MemStore.db MemStore.queries
    (fun p s h => by
      simp only [MemStore.queries, MemStore.CreateEntry] at h ⊢
      split at h
      · simp at h
      · exact ⟨rfl, rfl⟩)
    transfer30 (twoAccountsFailingAt 4) (by decide)

/-- C7: self-transfer.  `AddAccountBalance` is an atomic add-and-return on the
stored balance and there is no other writer.  For every `TransferTx` call with
`FromAccountID = ToAccountID` on an existing account in which every storage
call made succeeds, the call returns a nil error; it makes exactly one
`CreateTransfer` call, exactly two `CreateEntry` calls on that account (the
debit `-Amount`, then the credit `+Amount`) and exactly two
`AddAccountBalance` calls on that account; the debit and the credit sum to
zero; and the stored balance of the account after the call is its balance
before the call. -/
theorem TransferTx_self_transfer {σ : Type} (db : DB σ) (q : Queries σ)
    (bal : σ → int64 → Option int64) (laws : AtomicBalances db q bal)
    (arg : TransferTxParams) (s : σ) (before : int64)
    (hself : arg.FromAccountID = arg.ToAccountID)
    (hexists : bal s arg.FromAccountID = some before)
    (hsteps : ∀ ev ∈ (TransferTx db q arg s).trace, ev.err = none) :
    (TransferTx db q arg s).err = none ∧
    calls (TransferTx db q arg s).trace =
      [Call.BeginTx,
        Call.CreateTransfer ⟨arg.FromAccountID, arg.FromAccountID, arg.Amount⟩,
        Call.CreateEntry ⟨arg.FromAccountID, arg.Amount.neg⟩,
        Call.CreateEntry ⟨arg.FromAccountID, arg.Amount⟩,
        Call.AddAccountBalance ⟨arg.FromAccountID, arg.Amount⟩,
        Call.AddAccountBalance ⟨arg.FromAccountID, arg.Amount.neg⟩,
        Call.Commit] ∧
    arg.Amount.neg.val = -arg.Amount.val ∧
    arg.Amount.neg.val + arg.Amount.val = 0 ∧
    bal (TransferTx db q arg s).st arg.FromAccountID = some before := by
  have hok : (TransferTx db q arg s).err = none :=
    (TransferTx_err_none_iff db q arg s).2 hsteps
  obtain ⟨s1, s2, s3, s4, s5, s6, s7, t, fe, te, a1, a2, -, -, -, -, -, -, -, -, -, htr⟩ :=
    TransferTx_ok db q arg s hok
  obtain ⟨c1, c2, b1, b2, -, -, hb1, hv1, hb2, hv2, hfin⟩ :=
    TransferTx_ok_balances db q bal laws arg s hok
  have hlt : ¬ arg.FromAccountID < arg.FromAccountID := lt_irrefl arg.FromAccountID.val
  simp only [firstUpdate, secondUpdate, ← hself, hlt, if_false, if_true, hexists,
    Option.some.injEq] at hb1 hv1 hb2 hv2 hfin htr
  subst hb1 hb2
  have hc2 := c2.Balance.property
  have hc1 := c1.Balance.property
  have hbf := before.property
  have hneg : arg.Amount.neg.val = -arg.Amount.val := by
    rcases int64.neg_val_cases arg.Amount with h | ⟨h, h'⟩
    · exact h
    · omega
  refine ⟨hok, ?_, hneg, by omega, ?_⟩
  · rw [htr]
    simp [calls]
  · rw [hfin]
    simp only [if_true, Option.some.injEq]
    apply Subtype.ext
    omega

/-- Witness of C7: 30 from account 1 (balance 100) to itself. -/
theorem TransferTx_self_transfer_witness :
    (TransferTx MemStore.db MemStore.queries selfTransfer30 oneAccount).err = none ∧
    calls (TransferTx MemStore.db MemStore.queries selfTransfer30 oneAccount).trace =
      [Call.BeginTx,
        Call.CreateTransfer
          ⟨selfTransfer30.FromAccountID, selfTransfer30.FromAccountID, selfTransfer30.Amount⟩,
        Call.CreateEntry ⟨selfTransfer30.FromAccountID, selfTransfer30.Amount.neg⟩,
        Call.CreateEntry ⟨selfTransfer30.FromAccountID, selfTransfer30.Amount⟩,
        Call.AddAccountBalance ⟨selfTransfer30.FromAccountID, selfTransfer30.Amount⟩,
        Call.AddAccountBalance ⟨selfTransfer30.FromAccountID, selfTransfer30.Amount.neg⟩,
        Call.Commit] ∧
    selfTransfer30.Amount.neg.val = -selfTransfer30.Amount.val ∧
    selfTransfer30.Amount.neg.val + selfTransfer30.Amount.val = 0 ∧
    MemStore.balance (TransferTx MemStore.db MemStore.queries selfTransfer30 oneAccount).st
      selfTransfer30.FromAccountID = some (int64.wrap 100) :=
  TransferTx_self_transfer MemStore.db MemStore.queries MemStore.balance
    MemStore.atomicBalances selfTransfer30 oneAccount (int64.wrap 100)
    (by decide) (by decide) (by decide)

/-- C8 (amended): post-balance snapshots.  `AddAccountBalance` is an atomic
add-and-return on the stored balance and there is no other writer.  For every
successful `TransferTx` call, `result.FromAccount.Balance` is the stored
balance of the source after the call.  When `FromAccountID ≠ ToAccountID`,
`result.ToAccount.Balance` is the stored balance of the destination after the
call.  When `FromAccountID = ToAccountID`, `result.ToAccount` is the snapshot
taken between the two updates: its balance is the stored balance after the
call plus `Amount`. -/
theorem TransferTx_account_snapshots {σ : Type} (db : DB σ) (q : Queries σ)
    (bal : σ → int64 → Option int64) (laws : AtomicBalances db q bal)
    (arg : TransferTxParams) (s : σ) (hok : (TransferTx db q arg s).err = none) :
    bal (TransferTx db q arg s).st arg.FromAccountID =
      some (TransferTx db q arg s).result.FromAccount.Balance ∧
    (arg.FromAccountID ≠ arg.ToAccountID →
      bal (TransferTx db q arg s).st arg.ToAccountID =
        some (TransferTx db q arg s).result.ToAccount.Balance) ∧
    (arg.FromAccountID = arg.ToAccountID →
      (TransferTx db q arg s).result.ToAccount.Balance.val =
        (TransferTx db q arg s).result.FromAccount.Balance.val + arg.Amount.val) := by
  obtain ⟨a1, a2, b1, b2, hF, hT, hb1, hv1, hb2, hv2, hfin⟩ :=
    TransferTx_ok_balances db q bal laws arg s hok
  rw [hF, hT, hfin, hfin]
  by_cases hlt : arg.FromAccountID < arg.ToAccountID
  · have hne : arg.FromAccountID ≠ arg.ToAccountID := by
      intro h
      rw [h] at hlt
      exact lt_irrefl arg.ToAccountID.val hlt
    simp only [firstUpdate, secondUpdate, hlt, if_true, hne, if_false]
    simp [hne]
  · by_cases heq : arg.FromAccountID = arg.ToAccountID
    · have hirr : ¬ arg.FromAccountID < arg.FromAccountID :=
        lt_irrefl arg.FromAccountID.val
      simp only [firstUpdate, secondUpdate, ← heq, hirr, if_false, if_true,
        Option.some.injEq] at hb1 hv1 hb2 hv2 ⊢
      subst hb2
      have hc2 := a2.Balance.property
      have hc1 := a1.Balance.property
      have hbf := b1.property
      refine ⟨trivial, fun h => absurd rfl h, fun _ => ?_⟩
      rcases int64.neg_val_cases arg.Amount with h | ⟨h, h'⟩ <;> omega
    · have hne2 : arg.ToAccountID ≠ arg.FromAccountID := fun h => heq h.symm
      simp only [firstUpdate, secondUpdate, hlt, if_false, if_true]
      simp [heq, hne2]

/-- Witness of C8: 30 from account 1 to account 2. -/
theorem TransferTx_account_snapshots_witness :
    MemStore.balance (TransferTx MemStore.db MemStore.queries transfer30 twoAccounts).st
        transfer30.FromAccountID =
      some (TransferTx MemStore.db MemStore.queries transfer30 twoAccounts).result.FromAccount.Balance ∧
    (transfer30.FromAccountID ≠ transfer30.ToAccountID →
      MemStore.balance (TransferTx MemStore.db MemStore.queries transfer30 twoAccounts).st
          transfer30.ToAccountID =
        some (TransferTx MemStore.db MemStore.queries transfer30 twoAccounts).result.ToAccount.Balance) ∧
    (transfer30.FromAccountID = transfer30.ToAccountID →
      (TransferTx MemStore.db MemStore.queries transfer30 twoAccounts).result.ToAccount.Balance.val =
        (TransferTx MemStore.db MemStore.queries transfer30 twoAccounts).result.FromAccount.Balance.val
          + transfer30.Amount.val) :=
  TransferTx_account_snapshots MemStore.db MemStore.queries MemStore.balance
    MemStore.atomicBalances transfer30 twoAccounts (by decide)

/-- Counterexample to C8 as stated: a transfer of 30 from account 1 (balance
100) to itself succeeds and leaves the stored balance at 100, while
`result.ToAccount.Balance` is 130. -/
theorem TransferTx_self_transfer_snapshot_stale :
    selfTransfer30.FromAccountID = selfTransfer30.ToAccountID ∧
    (TransferTx MemStore.db MemStore.queries selfTransfer30 oneAccount).err = none ∧
    MemStore.balance (TransferTx MemStore.db MemStore.queries selfTransfer30 oneAccount).st
      selfTransfer30.ToAccountID = some (int64.wrap 100) ∧
    (TransferTx MemStore.db MemStore.queries selfTransfer30 oneAccount).result.ToAccount.Balance
      = int64.wrap 130 ∧
    (TransferTx MemStore.db MemStore.queries selfTransfer30 oneAccount).result.ToAccount.Balance
      ≠ int64.wrap 100 := by
  decide

/-- C9: error propagation of the transaction wrapper.  For every `execTx` call
whose transaction was opened: if the callback returns the error `e`, the one
call `execTx` makes afterwards is `Rollback`, and it returns `e` itself when
the rollback succeeds and the single error `tx err: e, rb err: r` when the
rollback fails with `r`; if the callback returns nil, the one call `execTx`
makes afterwards is `Commit`, and it returns what `Commit` returned.
`TransferTx` returns the error of `execTx` unchanged, opens one transaction,
ends it at most once and runs at most five write steps. -/
theorem execTx_error_propagation {σ ρ : Type} (db : DB σ) (q : Queries σ)
    (fn : Queries σ → ρ → World σ → (ρ × Option GoError) × World σ)
    (captured : ρ) (w : World σ) (hopen : (db.BeginTx w.st).1 = none) :
    (∀ e, (fn q captured (w.exec Call.BeginTx db.BeginTx).2).1.2 = some e →
      (execTx db q fn captured w).2.trace =
        (fn q captured (w.exec Call.BeginTx db.BeginTx).2).2.trace ++
          [⟨Call.Rollback,
            (db.Rollback (fn q captured (w.exec Call.BeginTx db.BeginTx).2).2.st).1⟩] ∧
      ((db.Rollback (fn q captured (w.exec Call.BeginTx db.BeginTx).2).2.st).1 = none →
        (execTx db q fn captured w).1.2 = some e) ∧
      (∀ r, (db.Rollback (fn q captured (w.exec Call.BeginTx db.BeginTx).2).2.st).1 = some r →
        (execTx db q fn captured w).1.2 =
          some ⟨"tx err: " ++ e.msg ++ ", rb err: " ++ r.msg⟩)) ∧
    ((fn q captured (w.exec Call.BeginTx db.BeginTx).2).1.2 = none →
      (execTx db q fn captured w).2.trace =
        (fn q captured (w.exec Call.BeginTx db.BeginTx).2).2.trace ++
          [⟨Call.Commit,
            (db.Commit (fn q captured (w.exec Call.BeginTx db.BeginTx).2).2.st).1⟩] ∧
      (execTx db q fn captured w).1.2 =
        (db.Commit (fn q captured (w.exec Call.BeginTx db.BeginTx).2).2.st).1) ∧
    (∀ (arg : TransferTxParams) (s : σ),
      (TransferTx db q arg s).err = (execTx db q (TransferTx.fn arg) default ⟨s, []⟩).1.2 ∧
      (calls (TransferTx db q arg s).trace).count Call.BeginTx = 1 ∧
      (calls (TransferTx db q arg s).trace).count Call.Rollback +
        (calls (TransferTx db q arg s).trace).count Call.Commit ≤ 1 ∧
      (writes (TransferTx db q arg s).trace).length ≤ 5) := by
  have hb : (w.exec Call.BeginTx db.BeginTx).1 = none := hopen
  refine ⟨?_, ?_, ?_⟩
  · simp only [execTx, hb]
    generalize fn q captured (w.exec Call.BeginTx db.BeginTx).2 = body
    intro e he
    simp only [he]
    rcases hrb : db.Rollback body.2.st with ⟨_ | r, s2⟩ <;>
      simp [World.exec, hrb, rollbackFailure]
  · simp only [execTx, hb]
    generalize fn q captured (w.exec Call.BeginTx db.BeginTx).2 = body
    intro he
    simp only [he]
    simp [World.exec]
  · intro arg s
    refine ⟨rfl, ?_⟩
    obtain ⟨eb, s1, t, et, s2, fe, efe, s3, te, ete, s4, a1, e1, s5, a2, e2, s6, -, -, -, -,
      -, -, hcases⟩ := TransferTx_cases db q arg s
    rcases hcases with ⟨e, -, h⟩ | ⟨e, -, -, h⟩ | ⟨e, -, -, -, h⟩ | ⟨e, -, -, -, -, h⟩ |
      ⟨e, -, -, -, -, -, h⟩ | ⟨e, -, -, -, -, -, -, h⟩ | ⟨-, -, -, -, -, -, h⟩ <;>
    · rw [h]
      simp [calls, writes, Call.isWrite, abortedWith]

/-- Witness of C9: the second balance update fails with `boom` and the
rollback succeeds, so `execTx` returns `boom`. -/
theorem execTx_error_propagation_witness :
    (execTx MemStore.db MemStore.queries (TransferTx.fn transfer30) default
      ⟨twoAccountsFailingAt 5, []⟩).1.2 = some ⟨"boom"⟩ ∧
    (TransferTx MemStore.db MemStore.queries transfer30 (twoAccountsFailingAt 5)).err =
      (execTx MemStore.db MemStore.queries (TransferTx.fn transfer30) default
        ⟨twoAccountsFailingAt 5, []⟩).1.2 :=
  ⟨((execTx_error_propagation MemStore.db MemStore.queries (TransferTx.fn transfer30) default
      ⟨twoAccountsFailingAt 5, []⟩ (by decide)).1 ⟨"boom"⟩ (by decide)).2.1 (by decide),
    ((execTx_error_propagation MemStore.db MemStore.queries (TransferTx.fn transfer30) default
      ⟨twoAccountsFailingAt 5, []⟩ (by decide)).2.2 transfer30 (twoAccountsFailingAt 5)).1⟩

end SimpleBank
